import Mathlib

/-!
Verification of the 16-bit VM (CPU, device layer, assembler parser) against
its natural-language specification.  All definitions are shallow embeddings
of the Rust source: machine integers are modelled as `Nat` with explicit
`% 2^8` / `% 2^16` at the points where the Rust types truncate, and code
that can panic (out-of-bounds indexing, `unwrap`, unmatched `match` arms)
is modelled with `Option`.
-/

namespace VM

/-- The u16 modulus. -/
def U16 : ℕ := 65536

/-- The u8 modulus. -/
def U8 : ℕ := 256

/-- Flat byte memory (`src/device/memory.rs`): a fixed-size byte array,
modelled as a size together with a function from addresses to bytes.
Out-of-bounds access panics in the source and yields `none` here. -/
structure Memory where
  size : ℕ
  data : ℕ → ℕ

/-- `Memory::new(size)`: zero-initialised memory of the given size. -/
def Memory.new (size : ℕ) : Memory :=
  { size := size, data := fun _ => 0 }

/-- `Memory::get_u8`: read one byte, panics (here: `none`) out of bounds. -/
def Memory.get_u8 (m : Memory) (address : ℕ) : Option ℕ :=
  if address < m.size then some (m.data address) else none

/-- `Memory::set_u8`: write one byte.  The `% U8` records that the Rust
argument has type `u8`. -/
def Memory.set_u8 (m : Memory) (address value : ℕ) : Option Memory :=
  if address < m.size then
    some { m with data := Function.update m.data address (value % U8) }
  else none

/-- `Memory::get_u16`: big-endian read of two consecutive bytes
(`u16::from_be_bytes([memory[address], memory[address + 1]])`). -/
def Memory.get_u16 (m : Memory) (address : ℕ) : Option ℕ := do
  let hi ← m.get_u8 address
  let lo ← m.get_u8 (address + 1)
  some (hi * U8 + lo)

/-- `Memory::set_u16`: big-endian write of the two bytes of `value`
(`value.to_be_bytes()`; the `% U16` records that `value` has type `u16`). -/
def Memory.set_u16 (m : Memory) (address value : ℕ) : Option Memory := do
  let m1 ← m.set_u8 address (value % U16 / U8)
  m1.set_u8 (address + 1) (value % U8)

/-- All stored bytes of a memory are in the `u8` range.  Every memory the
Rust program can build satisfies this (the array holds `u8` values). -/
def Memory.WF (m : Memory) : Prop :=
  ∀ a, m.data a < U8

/-! ## u16 arithmetic helpers (wrapping semantics, cf. spec §9) -/

/-- Wrapping u16 addition. -/
def u16add (a b : ℕ) : ℕ := (a + b) % U16

/-- Wrapping u16 subtraction. -/
def u16sub (a b : ℕ) : ℕ := (a % U16 + U16 - b % U16) % U16

/-- Wrapping u16 multiplication. -/
def u16mul (a b : ℕ) : ℕ := a * b % U16

/-- u16 left shift (`<<`), wrapping the result to 16 bits. -/
def u16shl (a b : ℕ) : ℕ := a <<< b % U16

/-- u16 right shift (`>>`). -/
def u16shr (a b : ℕ) : ℕ := a % U16 >>> b

/-- u16 bitwise not (`!x`). -/
def u16not (a : ℕ) : ℕ := a % U16 ^^^ 65535

/-! ## Register file (`src/cpu/register.rs`)

Each register is addressed by its byte offset in the register memory. -/

namespace register

def IP : ℕ := 0
def ACC : ℕ := 2
def R1 : ℕ := 4
def R2 : ℕ := 6
def R3 : ℕ := 8
def R4 : ℕ := 10
def R5 : ℕ := 12
def R6 : ℕ := 14
def R7 : ℕ := 16
def R8 : ℕ := 18
def SP : ℕ := 20
def FP : ℕ := 22
/-- Memory bank register offset. -/
def MB : ℕ := 24
/-- Interrupt mask register offset. -/
def IM : ℕ := 26

def LIST : List ℕ := [IP, ACC, R1, R2, R3, R4, R5, R6, R7, R8, SP, FP, MB, IM]

def GENERAL_PURPOSE_LIST : List ℕ := [R1, R2, R3, R4, R5, R6, R7, R8]

def SIZE : ℕ := LIST.length * 2

/-- `register::get_from_string`: name → register index.  The `"MB"` arm of
the source returns `FP` (this is the exact translation of the `match`);
unknown names panic (`none`). -/
def get_from_string (s : String) : Option ℕ :=
  if s = "IP" then some IP
  else if s = "ACC" then some ACC
  else if s = "R1" then some R1
  else if s = "R2" then some R2
  else if s = "R3" then some R3
  else if s = "R4" then some R4
  else if s = "R5" then some R5
  else if s = "R6" then some R6
  else if s = "R7" then some R7
  else if s = "R8" then some R8
  else if s = "SP" then some SP
  else if s = "FP" then some FP
  else if s = "MB" then some FP
  else if s = "IM" then some IM
  else none

end register

/-! ## Instruction table (`src/cpu/instruction.rs`) -/

structure Instruction where
  opcode : ℕ
  size : ℕ
  deriving DecidableEq

namespace instruction

def LIT_REG : ℕ := 4
def REG_LIT : ℕ := 4
def REG_LIT8 : ℕ := 3
def REG_REG : ℕ := 3
def REG_MEM : ℕ := 4
def MEM_REG : ℕ := 4
def LIT_MEM : ℕ := 5
def REG_PTR_REG : ℕ := 3
def LIT_OFF_REG : ℕ := 5
def NONE : ℕ := 1
def REG : ℕ := 2
def LIT : ℕ := 3

def MOVE_LIT_MEM : Instruction := ⟨0x09, LIT_MEM⟩
def MOVE_LIT_REG : Instruction := ⟨0x10, LIT_REG⟩
def MOVE_REG_REG : Instruction := ⟨0x11, REG_REG⟩
def MOVE_REG_MEM : Instruction := ⟨0x12, REG_MEM⟩
def MOVE_MEM_REG : Instruction := ⟨0x13, MEM_REG⟩
def PSH_LIT : Instruction := ⟨0x16, LIT⟩
def PSH_REG : Instruction := ⟨0x17, REG⟩
def POP_REG : Instruction := ⟨0x18, REG⟩
def CAL_LIT : Instruction := ⟨0x19, LIT⟩
def CAL_REG : Instruction := ⟨0x1a, REG⟩
def RET : Instruction := ⟨0x1b, NONE⟩
def MOVE_REG_PTR_REG : Instruction := ⟨0x1c, REG_PTR_REG⟩
def MOVE_LIT_OFF_REG : Instruction := ⟨0x1d, LIT_OFF_REG⟩
def ADD_REG_REG : Instruction := ⟨0x14, REG_REG⟩
def ADD_LIT_REG : Instruction := ⟨0x30, LIT_REG⟩
def SUB_LIT_REG : Instruction := ⟨0x31, LIT_REG⟩
def SUB_REG_LIT : Instruction := ⟨0x32, REG_LIT⟩
def SUB_REG_REG : Instruction := ⟨0x33, REG_REG⟩
def MUL_LIT_REG : Instruction := ⟨0x34, LIT_REG⟩
def MUL_REG_REG : Instruction := ⟨0x35, REG_REG⟩
def INC_REG : Instruction := ⟨0x36, REG⟩
def DEC_REG : Instruction := ⟨0x37, REG⟩
def LSF_REG_LIT8 : Instruction := ⟨0x40, REG_LIT8⟩
def LSF_REG_REG : Instruction := ⟨0x41, REG_REG⟩
def RSF_REG_LIT8 : Instruction := ⟨0x42, REG_LIT8⟩
def RSF_REG_REG : Instruction := ⟨0x43, REG_REG⟩
def AND_REG_LIT : Instruction := ⟨0x44, REG_LIT⟩
def AND_REG_REG : Instruction := ⟨0x45, REG_REG⟩
def OR_REG_LIT : Instruction := ⟨0x46, REG_LIT⟩
def OR_REG_REG : Instruction := ⟨0x47, REG_REG⟩
def XOR_REG_LIT : Instruction := ⟨0x48, REG_LIT⟩
def XOR_REG_REG : Instruction := ⟨0x49, REG_REG⟩
def NOT_REG : Instruction := ⟨0x4a, REG⟩
def JNE_LIT_MEM : Instruction := ⟨0x50, LIT_MEM⟩
def JNE_REG_MEM : Instruction := ⟨0x51, REG_MEM⟩
def JEQ_LIT_MEM : Instruction := ⟨0x52, LIT_MEM⟩
def JEQ_REG_MEM : Instruction := ⟨0x53, REG_MEM⟩
def JGT_LIT_MEM : Instruction := ⟨0x54, LIT_MEM⟩
def JGT_REG_MEM : Instruction := ⟨0x55, REG_MEM⟩
def JLT_LIT_MEM : Instruction := ⟨0x56, LIT_MEM⟩
def JLT_REG_MEM : Instruction := ⟨0x57, REG_MEM⟩
def JGE_LIT_MEM : Instruction := ⟨0x58, LIT_MEM⟩
def JGE_REG_MEM : Instruction := ⟨0x59, REG_MEM⟩
def JLE_LIT_MEM : Instruction := ⟨0x5a, LIT_MEM⟩
def JLE_REG_MEM : Instruction := ⟨0x5b, REG_MEM⟩
def HLT : Instruction := ⟨0xff, NONE⟩

/-- Modelled from the spec: the source's `cpu.rs` dispatches on
`instruction::INT.opcode`, but the `INT` entry of the instruction table is
not in `src/`.  The spec (§4.4) says only `INT <u16>` has "opcode distinct
from above"; a literal operand makes its size `LIT` (3).  The opcode value
`0xfd` is a fresh byte unused by every other instruction. -/
def INT : Instruction := ⟨0xfd, LIT⟩

/-- Modelled from the spec: the source's `cpu.rs` dispatches on
`instruction::RET_INT.opcode`, but the `RET_INT` entry of the instruction
table is not in `src/`.  The spec (§4.4) gives it no operands, so its size
is `NONE` (1); the opcode value `0xfc` is a fresh unused byte. -/
def RET_INT : Instruction := ⟨0xfc, NONE⟩

end instruction

/-! ## Devices (`src/device/*.rs`)

The Rust `dyn Device` is a closed world in this program: flat `Memory`,
`BankedMemory`, and `MemoryMapper` (the `Screen` is out of scope per spec
§1 and is touched by no claim).  Regions hold the mapped device, its
`start`/`end` addresses and the `remap` flag. -/

mutual

inductive Device where
  | flat : Memory → Device
  | banked : ℕ → List Memory → ℕ → Device
  | mapper : List Region → Device

inductive Region where
  | mk : Device → ℕ → ℕ → Bool → Region

end

/-- `BankedMemory::new(count, size)`: `count` zeroed banks, bank 0 current. -/
def BankedMemory.new (count size : ℕ) : Device :=
  Device.banked 0 (List.replicate count (Memory.new size)) size

/-- `MemoryMapper::new()`: empty region deque. -/
def MemoryMapper.new : Device := Device.mapper []

/-- `MemoryMapper::map`: prepend a new region (`push_front`). -/
def MemoryMapper.map (regions : List Region) (device : Device)
    (start stop : ℕ) (remap : Bool) : List Region :=
  Region.mk device start stop remap :: regions

def Region.device : Region → Device
  | .mk d _ _ _ => d

def Region.rstart : Region → ℕ
  | .mk _ s _ _ => s

def Region.rend : Region → ℕ
  | .mk _ _ e _ => e

def Region.remap : Region → Bool
  | .mk _ _ _ r => r

attribute [simp] Region.device Region.rstart Region.rend Region.remap

/-- The membership test of `find_region`:
`(region.start..=region.end).contains(&address)`. -/
def Region.containsAddr (r : Region) (address : ℕ) : Bool :=
  decide (r.rstart ≤ address ∧ address ≤ r.rend)

/-- `MemoryMapper::find_region`: first region (from the front) whose
`[start, end]` range contains the address; `unwrap` panics (`none`) when
no region matches. -/
def find_region (regions : List Region) (address : ℕ) : Option Region :=
  regions.find? (fun r => r.containsAddr address)

/-- The address a region's device sees: rebased when `remap` is set. -/
def Region.localAddr (r : Region) (address : ℕ) : ℕ :=
  if r.remap then address - r.rstart else address

mutual

/-- `Device::get_u8` for each implementation; the mapper arm fuses
`find_region` with the delegated access (see `mapper_get_u8_eq`). -/
def Device.get_u8 : Device → ℕ → Option ℕ
  | .flat m, a => m.get_u8 a
  | .banked mb banks _, a => do
      let bank ← banks.get? mb
      bank.get_u8 a
  | .mapper regions, a => Region.get_u8_list regions a

def Region.get_u8_list : List Region → ℕ → Option ℕ
  | [], _ => none
  | .mk d s e r :: rest, a =>
      if s ≤ a ∧ a ≤ e then d.get_u8 (if r then a - s else a)
      else Region.get_u8_list rest a

end

mutual

/-- `Device::get_u16` for each implementation. -/
def Device.get_u16 : Device → ℕ → Option ℕ
  | .flat m, a => m.get_u16 a
  | .banked mb banks _, a => do
      let bank ← banks.get? mb
      bank.get_u16 a
  | .mapper regions, a => Region.get_u16_list regions a

def Region.get_u16_list : List Region → ℕ → Option ℕ
  | [], _ => none
  | .mk d s e r :: rest, a =>
      if s ≤ a ∧ a ≤ e then d.get_u16 (if r then a - s else a)
      else Region.get_u16_list rest a

end

mutual

/-- `Device::set_u8` for each implementation (state-passing form of the
Rust in-place mutation). -/
def Device.set_u8 : Device → ℕ → ℕ → Option Device
  | .flat m, a, v => (m.set_u8 a v).map Device.flat
  | .banked mb banks size, a, v => do
      let bank ← banks.get? mb
      let bank ← bank.set_u8 a v
      some (Device.banked mb (banks.set mb bank) size)
  | .mapper regions, a, v =>
      (Region.set_u8_list regions a v).map Device.mapper

def Region.set_u8_list : List Region → ℕ → ℕ → Option (List Region)
  | [], _, _ => none
  | .mk d s e r :: rest, a, v =>
      if s ≤ a ∧ a ≤ e then do
        let d ← d.set_u8 (if r then a - s else a) v
        some (Region.mk d s e r :: rest)
      else do
        let rest ← Region.set_u8_list rest a v
        some (Region.mk d s e r :: rest)

end

mutual

/-- `Device::set_u16` for each implementation. -/
def Device.set_u16 : Device → ℕ → ℕ → Option Device
  | .flat m, a, v => (m.set_u16 a v).map Device.flat
  | .banked mb banks size, a, v => do
      let bank ← banks.get? mb
      let bank ← bank.set_u16 a v
      some (Device.banked mb (banks.set mb bank) size)
  | .mapper regions, a, v =>
      (Region.set_u16_list regions a v).map Device.mapper

def Region.set_u16_list : List Region → ℕ → ℕ → Option (List Region)
  | [], _, _ => none
  | .mk d s e r :: rest, a, v =>
      if s ≤ a ∧ a ≤ e then do
        let d ← d.set_u16 (if r then a - s else a) v
        some (Region.mk d s e r :: rest)
      else do
        let rest ← Region.set_u16_list rest a v
        some (Region.mk d s e r :: rest)

end

mutual

/-- `Device::set_mb`: a no-op on flat memory, selects the current bank on
banked memory, and broadcasts to every region's device on the mapper. -/
def Device.set_mb : Device → ℕ → Device
  | .flat m, _ => .flat m
  | .banked _ banks size, v => .banked (v % U16) banks size
  | .mapper regions, v => .mapper (Region.set_mb_list regions v)

def Region.set_mb_list : List Region → ℕ → List Region
  | [], _ => []
  | .mk d s e r :: rest, v =>
      Region.mk (d.set_mb v) s e r :: Region.set_mb_list rest v

end

/-- `Device::len` for each implementation; the mapper's is the constant
`0xffff`. -/
def Device.len : Device → ℕ
  | .flat m => m.size
  | .banked _ _ size => size
  | .mapper _ => 0xffff

/-! ## CPU (`src/cpu.rs`) -/

def INTERRUPT_VECTOR_ADDRESS : ℕ := 0x1000

structure CPU where
  memory : Device
  registers : Memory
  stack_frame_size : ℕ
  is_in_interrupt_handler : Bool

/-- `CPU::set_register`: writing `MB` additionally propagates the value to
the memory through `set_mb`; the register file itself is updated through
the big-endian `set_u16`. -/
def CPU.set_register (cpu : CPU) (reg value : ℕ) : Option CPU := do
  let cpu :=
    if reg = register.MB then { cpu with memory := cpu.memory.set_mb value }
    else cpu
  let rs ← cpu.registers.set_u16 reg value
  some { cpu with registers := rs }

/-- `CPU::get_register`. -/
def CPU.get_register (cpu : CPU) (reg : ℕ) : Option ℕ :=
  cpu.registers.get_u16 reg

/-- `CPU::fetch8`: read the byte at `IP`, advance `IP` by 1. -/
def CPU.fetch8 (cpu : CPU) : Option (ℕ × CPU) := do
  let ip ← cpu.get_register register.IP
  let res ← cpu.memory.get_u8 ip
  let cpu ← cpu.set_register register.IP (u16add ip 1)
  some (res, cpu)

/-- `CPU::fetch16`: read the big-endian u16 at `IP`, advance `IP` by 2. -/
def CPU.fetch16 (cpu : CPU) : Option (ℕ × CPU) := do
  let ip ← cpu.get_register register.IP
  let res ← cpu.memory.get_u16 ip
  let cpu ← cpu.set_register register.IP (u16add ip 2)
  some (res, cpu)

/-- `CPU::fetch_register_index`: `fetch8` used as a register offset. -/
def CPU.fetch_register_index (cpu : CPU) : Option (ℕ × CPU) :=
  cpu.fetch8

/-- `CPU::push_to_stack`: store at `SP`, decrement `SP` by 2, grow
`stack_frame_size` by 2. -/
def CPU.push_to_stack (cpu : CPU) (value : ℕ) : Option CPU := do
  let sp ← cpu.get_register register.SP
  let mem ← cpu.memory.set_u16 sp value
  let cpu := { cpu with memory := mem }
  let cpu ← cpu.set_register register.SP (u16sub sp 2)
  some { cpu with stack_frame_size := u16add cpu.stack_frame_size 2 }

/-- `CPU::pop_from_stack`: increment `SP` by 2, shrink `stack_frame_size`
by 2, read at the new `SP`. -/
def CPU.pop_from_stack (cpu : CPU) : Option (ℕ × CPU) := do
  let sp ← cpu.get_register register.SP
  let new_sp_address := u16add sp 2
  let cpu ← cpu.set_register register.SP new_sp_address
  let cpu := { cpu with stack_frame_size := u16sub cpu.stack_frame_size 2 }
  let v ← cpu.memory.get_u16 new_sp_address
  some (v, cpu)

/-- `CPU::push_state`: push R1..R8 (in order), IP, then
`stack_frame_size + 2`; then `FP ← SP` and `stack_frame_size ← 0`. -/
def CPU.push_state (cpu : CPU) : Option CPU := do
  let cpu ← register.GENERAL_PURPOSE_LIST.foldlM
    (fun c r => do
      let v ← c.get_register r
      c.push_to_stack v)
    cpu
  let ip ← cpu.get_register register.IP
  let cpu ← cpu.push_to_stack ip
  let cpu ← cpu.push_to_stack (u16add cpu.stack_frame_size 2)
  let sp ← cpu.get_register register.SP
  let cpu ← cpu.set_register register.FP sp
  some { cpu with stack_frame_size := 0 }

/-- `CPU::pop_state`: `SP ← FP`, bootstrap `stack_frame_size ← 2`, pop the
saved frame size, pop `IP`, pop R8..R1, then
`FP ← frame_pointer_address + saved_frame_size`. -/
def CPU.pop_state (cpu : CPU) : Option CPU := do
  let frame_pointer_address ← cpu.get_register register.FP
  let cpu ← cpu.set_register register.SP frame_pointer_address
  let cpu := { cpu with stack_frame_size := 2 }
  let (stack_frame_size, cpu) ← cpu.pop_from_stack
  let cpu := { cpu with stack_frame_size := stack_frame_size }
  let (ip, cpu) ← cpu.pop_from_stack
  let cpu ← cpu.set_register register.IP ip
  let cpu ← register.GENERAL_PURPOSE_LIST.reverse.foldlM
    (fun c r => do
      let vc ← c.pop_from_stack
      vc.2.set_register r vc.1)
    cpu
  cpu.set_register register.FP (u16add frame_pointer_address stack_frame_size)

/-- `CPU::handle_interrupt`: masked interrupts are ignored; otherwise read
the handler address from the vector, `push_state` unless already inside a
handler, set the sticky flag and jump. -/
def CPU.handle_interrupt (cpu : CPU) (value : ℕ) : Option CPU := do
  let im ← cpu.get_register register.IM
  if (1 <<< value) &&& im = 0 then
    some cpu
  else do
    let address ← cpu.memory.get_u16 (INTERRUPT_VECTOR_ADDRESS + value * 2)
    let cpu ← if cpu.is_in_interrupt_handler then some cpu else cpu.push_state
    let cpu := { cpu with is_in_interrupt_handler := true }
    cpu.set_register register.IP address

/-- `CPU::execute`: dispatch on the fetched opcode.  Returns the halt flag
together with the successor state; an unrecognized opcode panics (`none`).
The arms appear in source order; arithmetic uses the wrapping u16 helpers
(spec §9) and `INC/DEC/LSF/RSF/AND/OR/XOR/NOT` write through
`registers.set_u16` directly, exactly as the source does. -/
def CPU.execute (cpu : CPU) (instr : ℕ) : Option (CPU × Bool) := do
  if instr = instruction.INT.opcode then
    let (value, cpu) ← cpu.fetch16
    let cpu ← cpu.handle_interrupt value
    some (cpu, false)
  else if instr = instruction.RET_INT.opcode then
    let cpu := { cpu with is_in_interrupt_handler := false }
    let (_, cpu) ← cpu.pop_from_stack
    some (cpu, false)
  else if instr = instruction.MOVE_LIT_MEM.opcode then
    let (value, cpu) ← cpu.fetch16
    let (mem, cpu) ← cpu.fetch16
    let m ← cpu.memory.set_u16 mem value
    some ({ cpu with memory := m }, false)
  else if instr = instruction.MOVE_LIT_REG.opcode then
    let (value, cpu) ← cpu.fetch16
    let (r, cpu) ← cpu.fetch_register_index
    let cpu ← cpu.set_register r value
    some (cpu, false)
  else if instr = instruction.MOVE_REG_REG.opcode then
    let (rf, cpu) ← cpu.fetch_register_index
    let (rt, cpu) ← cpu.fetch_register_index
    let v ← cpu.get_register rf
    let cpu ← cpu.set_register rt v
    some (cpu, false)
  else if instr = instruction.MOVE_REG_PTR_REG.opcode then
    let (rf, cpu) ← cpu.fetch_register_index
    let (rt, cpu) ← cpu.fetch_register_index
    let ptr ← cpu.get_register rf
    let v ← cpu.memory.get_u16 ptr
    let cpu ← cpu.set_register rt v
    some (cpu, false)
  else if instr = instruction.MOVE_LIT_OFF_REG.opcode then
    let (address, cpu) ← cpu.fetch16
    let (rf, cpu) ← cpu.fetch_register_index
    let (rt, cpu) ← cpu.fetch_register_index
    let offset ← cpu.get_register rf
    let v ← cpu.memory.get_u16 (u16add offset address)
    let cpu ← cpu.set_register rt v
    some (cpu, false)
  else if instr = instruction.MOVE_REG_MEM.opcode then
    let (r, cpu) ← cpu.fetch_register_index
    let (mem, cpu) ← cpu.fetch16
    let v ← cpu.get_register r
    let m ← cpu.memory.set_u16 mem v
    some ({ cpu with memory := m }, false)
  else if instr = instruction.MOVE_MEM_REG.opcode then
    let (mem, cpu) ← cpu.fetch16
    let (r, cpu) ← cpu.fetch_register_index
    let v ← cpu.memory.get_u16 mem
    let cpu ← cpu.set_register r v
    some (cpu, false)
  else if instr = instruction.ADD_REG_REG.opcode then
    let (r1, cpu) ← cpu.fetch_register_index
    let (r2, cpu) ← cpu.fetch_register_index
    let v1 ← cpu.get_register r1
    let v2 ← cpu.get_register r2
    let cpu ← cpu.set_register register.ACC (u16add v1 v2)
    some (cpu, false)
  else if instr = instruction.ADD_LIT_REG.opcode then
    let (val, cpu) ← cpu.fetch16
    let (r, cpu) ← cpu.fetch_register_index
    let v ← cpu.get_register r
    let cpu ← cpu.set_register register.ACC (u16add v val)
    some (cpu, false)
  else if instr = instruction.SUB_LIT_REG.opcode then
    let (val, cpu) ← cpu.fetch16
    let (r, cpu) ← cpu.fetch_register_index
    let v ← cpu.get_register r
    let cpu ← cpu.set_register register.ACC (u16sub val v)
    some (cpu, false)
  else if instr = instruction.SUB_REG_LIT.opcode then
    let (r, cpu) ← cpu.fetch_register_index
    let (val, cpu) ← cpu.fetch16
    let v ← cpu.get_register r
    let cpu ← cpu.set_register register.ACC (u16sub v val)
    some (cpu, false)
  else if instr = instruction.SUB_REG_REG.opcode then
    let (r1, cpu) ← cpu.fetch_register_index
    let (r2, cpu) ← cpu.fetch_register_index
    let v1 ← cpu.get_register r1
    let v2 ← cpu.get_register r2
    let cpu ← cpu.set_register register.ACC (u16sub v1 v2)
    some (cpu, false)
  else if instr = instruction.MUL_REG_REG.opcode then
    let (r1, cpu) ← cpu.fetch_register_index
    let (r2, cpu) ← cpu.fetch_register_index
    let v1 ← cpu.get_register r1
    let v2 ← cpu.get_register r2
    let cpu ← cpu.set_register register.ACC (u16mul v1 v2)
    some (cpu, false)
  else if instr = instruction.MUL_LIT_REG.opcode then
    let (val, cpu) ← cpu.fetch16
    let (r, cpu) ← cpu.fetch_register_index
    let v ← cpu.get_register r
    let cpu ← cpu.set_register register.ACC (u16mul val v)
    some (cpu, false)
  else if instr = instruction.INC_REG.opcode then
    let (r, cpu) ← cpu.fetch_register_index
    let v ← cpu.get_register r
    let rs ← cpu.registers.set_u16 r (u16add v 1)
    some ({ cpu with registers := rs }, false)
  else if instr = instruction.DEC_REG.opcode then
    let (r, cpu) ← cpu.fetch_register_index
    let v ← cpu.get_register r
    let rs ← cpu.registers.set_u16 r (u16sub v 1)
    some ({ cpu with registers := rs }, false)
  else if instr = instruction.LSF_REG_REG.opcode then
    let (r1, cpu) ← cpu.fetch_register_index
    let (r2, cpu) ← cpu.fetch_register_index
    let v1 ← cpu.get_register r1
    let v2 ← cpu.get_register r2
    let rs ← cpu.registers.set_u16 r1 (u16shl v1 v2)
    some ({ cpu with registers := rs }, false)
  else if instr = instruction.LSF_REG_LIT8.opcode then
    let (r, cpu) ← cpu.fetch_register_index
    let (val, cpu) ← cpu.fetch16
    let v ← cpu.get_register r
    let rs ← cpu.registers.set_u16 r (u16shl v val)
    some ({ cpu with registers := rs }, false)
  else if instr = instruction.RSF_REG_REG.opcode then
    let (r1, cpu) ← cpu.fetch_register_index
    let (r2, cpu) ← cpu.fetch_register_index
    let v1 ← cpu.get_register r1
    let v2 ← cpu.get_register r2
    let rs ← cpu.registers.set_u16 r1 (u16shr v1 v2)
    some ({ cpu with registers := rs }, false)
  else if instr = instruction.RSF_REG_LIT8.opcode then
    let (r, cpu) ← cpu.fetch_register_index
    let (val, cpu) ← cpu.fetch16
    let v ← cpu.get_register r
    let rs ← cpu.registers.set_u16 r (u16shr v val)
    some ({ cpu with registers := rs }, false)
  else if instr = instruction.AND_REG_REG.opcode then
    let (r1, cpu) ← cpu.fetch_register_index
    let (r2, cpu) ← cpu.fetch_register_index
    let v1 ← cpu.get_register r1
    let v2 ← cpu.get_register r2
    let rs ← cpu.registers.set_u16 register.ACC (v1 &&& v2)
    some ({ cpu with registers := rs }, false)
  else if instr = instruction.AND_REG_LIT.opcode then
    let (r, cpu) ← cpu.fetch_register_index
    let (val, cpu) ← cpu.fetch16
    let v ← cpu.get_register r
    let rs ← cpu.registers.set_u16 register.ACC (v &&& val)
    some ({ cpu with registers := rs }, false)
  else if instr = instruction.OR_REG_REG.opcode then
    let (r1, cpu) ← cpu.fetch_register_index
    let (r2, cpu) ← cpu.fetch_register_index
    let v1 ← cpu.get_register r1
    let v2 ← cpu.get_register r2
    let rs ← cpu.registers.set_u16 register.ACC (v1 ||| v2)
    some ({ cpu with registers := rs }, false)
  else if instr = instruction.OR_REG_LIT.opcode then
    let (r, cpu) ← cpu.fetch_register_index
    let (val, cpu) ← cpu.fetch16
    let v ← cpu.get_register r
    let rs ← cpu.registers.set_u16 register.ACC (v ||| val)
    some ({ cpu with registers := rs }, false)
  else if instr = instruction.XOR_REG_REG.opcode then
    let (r1, cpu) ← cpu.fetch_register_index
    let (r2, cpu) ← cpu.fetch_register_index
    let v1 ← cpu.get_register r1
    let v2 ← cpu.get_register r2
    let rs ← cpu.registers.set_u16 register.ACC (v1 ^^^ v2)
    some ({ cpu with registers := rs }, false)
  else if instr = instruction.XOR_REG_LIT.opcode then
    let (r, cpu) ← cpu.fetch_register_index
    let (val, cpu) ← cpu.fetch16
    let v ← cpu.get_register r
    let rs ← cpu.registers.set_u16 register.ACC (v ^^^ val)
    some ({ cpu with registers := rs }, false)
  else if instr = instruction.NOT_REG.opcode then
    let (r, cpu) ← cpu.fetch_register_index
    let v ← cpu.get_register r
    let rs ← cpu.registers.set_u16 register.ACC (u16not v)
    some ({ cpu with registers := rs }, false)
  else if instr = instruction.JNE_LIT_MEM.opcode then
    let (lit, cpu) ← cpu.fetch16
    let (address, cpu) ← cpu.fetch16
    let acc ← cpu.get_register register.ACC
    if acc ≠ lit then
      let cpu ← cpu.set_register register.IP address
      some (cpu, false)
    else some (cpu, false)
  else if instr = instruction.JNE_REG_MEM.opcode then
    let (r, cpu) ← cpu.fetch_register_index
    let (address, cpu) ← cpu.fetch16
    let acc ← cpu.get_register register.ACC
    let v ← cpu.get_register r
    if acc ≠ v then
      let cpu ← cpu.set_register register.IP address
      some (cpu, false)
    else some (cpu, false)
  else if instr = instruction.JEQ_LIT_MEM.opcode then
    let (lit, cpu) ← cpu.fetch16
    let (address, cpu) ← cpu.fetch16
    let acc ← cpu.get_register register.ACC
    if acc = lit then
      let cpu ← cpu.set_register register.IP address
      some (cpu, false)
    else some (cpu, false)
  else if instr = instruction.JEQ_REG_MEM.opcode then
    let (r, cpu) ← cpu.fetch_register_index
    let (address, cpu) ← cpu.fetch16
    let acc ← cpu.get_register register.ACC
    let v ← cpu.get_register r
    if acc = v then
      let cpu ← cpu.set_register register.IP address
      some (cpu, false)
    else some (cpu, false)
  else if instr = instruction.JGT_LIT_MEM.opcode then
    let (lit, cpu) ← cpu.fetch16
    let (address, cpu) ← cpu.fetch16
    let acc ← cpu.get_register register.ACC
    if acc > lit then
      let cpu ← cpu.set_register register.IP address
      some (cpu, false)
    else some (cpu, false)
  else if instr = instruction.JGT_REG_MEM.opcode then
    let (r, cpu) ← cpu.fetch_register_index
    let (address, cpu) ← cpu.fetch16
    let acc ← cpu.get_register register.ACC
    let v ← cpu.get_register r
    if acc > v then
      let cpu ← cpu.set_register register.IP address
      some (cpu, false)
    else some (cpu, false)
  else if instr = instruction.JLT_LIT_MEM.opcode then
    let (lit, cpu) ← cpu.fetch16
    let (address, cpu) ← cpu.fetch16
    let acc ← cpu.get_register register.ACC
    if acc < lit then
      let cpu ← cpu.set_register register.IP address
      some (cpu, false)
    else some (cpu, false)
  else if instr = instruction.JLT_REG_MEM.opcode then
    let (r, cpu) ← cpu.fetch_register_index
    let (address, cpu) ← cpu.fetch16
    let acc ← cpu.get_register register.ACC
    let v ← cpu.get_register r
    if acc < v then
      let cpu ← cpu.set_register register.IP address
      some (cpu, false)
    else some (cpu, false)
  else if instr = instruction.JGE_LIT_MEM.opcode then
    let (lit, cpu) ← cpu.fetch16
    let (address, cpu) ← cpu.fetch16
    let acc ← cpu.get_register register.ACC
    if acc ≥ lit then
      let cpu ← cpu.set_register register.IP address
      some (cpu, false)
    else some (cpu, false)
  else if instr = instruction.JGE_REG_MEM.opcode then
    let (r, cpu) ← cpu.fetch_register_index
    let (address, cpu) ← cpu.fetch16
    let acc ← cpu.get_register register.ACC
    let v ← cpu.get_register r
    if acc ≥ v then
      let cpu ← cpu.set_register register.IP address
      some (cpu, false)
    else some (cpu, false)
  else if instr = instruction.JLE_LIT_MEM.opcode then
    let (lit, cpu) ← cpu.fetch16
    let (address, cpu) ← cpu.fetch16
    let acc ← cpu.get_register register.ACC
    if acc ≤ lit then
      let cpu ← cpu.set_register register.IP address
      some (cpu, false)
    else some (cpu, false)
  else if instr = instruction.JLE_REG_MEM.opcode then
    let (r, cpu) ← cpu.fetch_register_index
    let (address, cpu) ← cpu.fetch16
    let acc ← cpu.get_register register.ACC
    let v ← cpu.get_register r
    if acc ≤ v then
      let cpu ← cpu.set_register register.IP address
      some (cpu, false)
    else some (cpu, false)
  else if instr = instruction.PSH_LIT.opcode then
    let (lit, cpu) ← cpu.fetch16
    let cpu ← cpu.push_to_stack lit
    some (cpu, false)
  else if instr = instruction.PSH_REG.opcode then
    let (r, cpu) ← cpu.fetch_register_index
    let v ← cpu.get_register r
    let cpu ← cpu.push_to_stack v
    some (cpu, false)
  else if instr = instruction.POP_REG.opcode then
    let (r, cpu) ← cpu.fetch_register_index
    let (v, cpu) ← cpu.pop_from_stack
    let cpu ← cpu.set_register r v
    some (cpu, false)
  else if instr = instruction.CAL_LIT.opcode then
    let (address, cpu) ← cpu.fetch16
    let cpu ← cpu.push_state
    let cpu ← cpu.set_register register.IP address
    some (cpu, false)
  else if instr = instruction.CAL_REG.opcode then
    let (r, cpu) ← cpu.fetch_register_index
    let address ← cpu.get_register r
    let cpu ← cpu.push_state
    let cpu ← cpu.set_register register.IP address
    some (cpu, false)
  else if instr = instruction.RET.opcode then
    let cpu ← cpu.pop_state
    some (cpu, false)
  else if instr = instruction.HLT.opcode then
    some (cpu, true)
  else
    none

/-- `CPU::step`: fetch one opcode byte and execute it. -/
def CPU.step (cpu : CPU) : Option (CPU × Bool) := do
  let (instr, cpu) ← cpu.fetch8
  cpu.execute instr

/-- `CPU::new`: zeroed register file, `SP = FP = memory.len() as u16 - 2`,
`IM = 0xff`. -/
def CPU.new (memory : Device) : Option CPU := do
  let cpu : CPU :=
    { memory := memory
      registers := Memory.new register.SIZE
      stack_frame_size := 0
      is_in_interrupt_handler := false }
  let cpu ← cpu.set_register register.SP (u16sub (cpu.memory.len % U16) 2)
  let cpu ← cpu.set_register register.FP (u16sub (cpu.memory.len % U16) 2)
  cpu.set_register register.IM 0xff

/-! ## Assembler parser AST (`src/assembler/parser.rs`)

The Rust enum is called `Type`; that is a keyword in Lean, so the
embedding calls it `Ty`. -/

inductive Operator where
  | Plus
  | Minus
  | Star
  deriving DecidableEq

/-- `Operator::priority`. -/
def Operator.priority : Operator → ℕ
  | .Plus => 1
  | .Minus => 1
  | .Star => 2

inductive Ty where
  | Instruction0 : Instruction → Ty
  | Instruction1 : Instruction → Ty → Ty
  | Instruction2 : Instruction → Ty → Ty → Ty
  | Instruction3 : Instruction → Ty → Ty → Ty → Ty
  | BinaryOperation : Ty → Ty → Ty → Ty
  | Ignored : Ty
  | HexLiteral : ℕ → Ty
  | HexLiteral8 : ℕ → Ty
  | Address : ℕ → Ty
  | Variable : String → Ty
  | Register : String → Ty
  | Operator : Operator → Ty
  | Label : String → Ty
  deriving DecidableEq

/-- `usize::MAX`, the initial `priority` of the scan in
`group_binary_operations`. -/
def USIZE_MAX : ℕ := 2 ^ 64 - 1

/-- The scan loop of `group_binary_operations`: walk the odd positions
`i = 1, 3, 5, …` and keep the position of the first operator whose
priority is strictly below the best seen so far (so ties keep the
leftmost).  A non-operator at an odd position panics (`none`). -/
def scanMinOp (expression : List Ty) (i pos priority : ℕ) :
    Option (ℕ × ℕ) :=
  if h : i < expression.length then
    match expression.get ⟨i, h⟩ with
    | Ty.Operator op =>
        if op.priority < priority then
          scanMinOp expression (i + 2) i op.priority
        else
          scanMinOp expression (i + 2) pos priority
    | _ => none
  else
    some (pos, priority)
termination_by expression.length - i

/-- `group_binary_operations`: a single element is returned as-is;
otherwise the operator at the selected position is removed and the list is
split around it, recursing on both halves.  Out-of-range positions (which
the scan never produces on well-formed input) panic (`none`). -/
def group_binary_operations (expression : List Ty) : Option Ty :=
  if expression.length = 1 then
    expression.head?
  else
    match scanMinOp expression 1 1 USIZE_MAX with
    | none => none
    | some (pos, _) =>
      if h : pos < expression.length then do
        let op := expression.get ⟨pos, h⟩
        let a ← group_binary_operations (expression.take pos)
        let b ← group_binary_operations (expression.drop (pos + 1))
        some (Ty.BinaryOperation op a b)
      else none
termination_by expression.length
decreasing_by
  · simp only [List.length_take]
    omega
  · simp only [List.length_drop]
    omega

/-! ## Parser combinator core (`src/parser_combinator/core.rs`)

Only the pieces the claims touch: `ParserState`, `ParseError`, and
`one_of`.  A parser is its parse function `Input → ParseResult Output`. -/

structure ParserState (T : Type) where
  index : ℕ
  result : T
  deriving DecidableEq

structure ParseError where
  message : String
  index : ℕ
  deriving DecidableEq

/-- `ParseError::new`: note the hard-coded `index: 0`. -/
def ParseError.new (message : String) : ParseError :=
  { message := message, index := 0 }

def ParseResult (O : Type) : Type := Except ParseError (ParserState O)

/-- The composite message built by `one_of` when every alternative has
failed. -/
def oneOfMessage (errors : List ParseError) : String :=
  "Could not match any parsers:\n" ++
    String.join (errors.map (fun err => "\t" ++ err.message ++ "\n"))

/-- The loop of `Parser::one_of`: try each parser on the same input,
collecting errors; the first success wins. -/
def oneOfGo {I O : Type} (input : I) (errors : List ParseError) :
    List (I → ParseResult O) → ParseResult O
  | [] => .error (ParseError.new (oneOfMessage errors))
  | p :: rest =>
    match p input with
    | .error err => oneOfGo input (errors ++ [err]) rest
    | .ok state => .ok state

/-- `Parser::one_of`. -/
def Parser.one_of {I O : Type} (parsers : List (I → ParseResult O))
    (input : I) : ParseResult O :=
  oneOfGo input [] parsers

/-- A concrete byte memory for test programs (the counterpart of building
a `Memory` with a sequence of `set_u8` calls, as the source's tests do). -/
def Memory.ofBytes (bs : List ℕ) : Memory :=
  { size := bs.length, data := fun a => bs.getD a 0 % U8 }

/-- The register file `CPU::new` builds: the two big-endian bytes of
`memory.len() as u16 - 2` at `SP` and at `FP`, the bytes of `0xff` at
`IM`, zeroes elsewhere. -/
def newRegisters (L : ℕ) : Memory :=
  { size := register.SIZE
    data :=
      Function.update (Function.update (Function.update
        (Function.update (Function.update (Function.update
          (fun _ => (0:ℕ))
          register.SP (u16sub (L % U16) 2 % U16 / U8))
          (register.SP + 1) (u16sub (L % U16) 2 % U8))
          register.FP (u16sub (L % U16) 2 % U16 / U8))
          (register.FP + 1) (u16sub (L % U16) 2 % U8))
          register.IM (0xff % U16 / U8))
          (register.IM + 1) (0xff % U8) }

/-- Packaging of one `map` call's arguments (device, start, end, remap). -/
def mkRegion (c : Device × ℕ × ℕ × Bool) : Region :=
  Region.mk c.1 c.2.1 c.2.2.1 c.2.2.2

/-- Apply a sequence of `MemoryMapper::map` calls, in call order. -/
def applyMaps (regions : List Region)
    (calls : List (Device × ℕ × ℕ × Bool)) : List Region :=
  calls.foldl (fun rs c => MemoryMapper.map rs c.1 c.2.1 c.2.2.1 c.2.2.2)
    regions

/-! ## Balanced `push_state`/`pop_state` runs (claim C4)

The claim quantifies over "N calls of `push_state`, followed by N calls
of `pop_state`, with register writes allowed in between".  `WritesStep`
is one intervening `CPU::set_register` call to a named register other
than `SP` and `FP` (writing those two visibly breaks the save/restore
protocol, see the C4 counterexample); `BalancedRun n` is the nested
sequence of `n` pushes and `n` matching pops with arbitrary such writes
between consecutive calls. -/

def WritesStep (c c' : CPU) : Prop :=
  ∃ r v, r ∈ register.LIST ∧ r ≠ register.SP ∧ r ≠ register.FP ∧
    c.set_register r v = some c'

def WritesStar : CPU → CPU → Prop :=
  Relation.ReflTransGen WritesStep

inductive BalancedRun : ℕ → CPU → CPU → Prop where
  | base : ∀ {c c' : CPU}, WritesStar c c' → BalancedRun 0 c c'
  | frame : ∀ {n : ℕ} {c c1 c2 c3 c4 c5 : CPU},
      c.push_state = some c1 → WritesStar c1 c2 →
      BalancedRun n c2 c3 → WritesStar c3 c4 →
      c4.pop_state = some c5 → BalancedRun (n + 1) c c5

/-! # Theorems -/

theorem Memory.WF.new (size : ℕ) : (Memory.new size).WF := by
  intro a
  simp [Memory.new, U8]

theorem Memory.WF.set_u8 {m : Memory} (h : m.WF) {a v : ℕ} {m' : Memory}
    (hs : m.set_u8 a v = some m') : m'.WF := by
  intro b
  unfold Memory.set_u8 at hs
  split at hs
  · cases hs
    simp only [Function.update_apply]
    split
    · have hpos : (0:ℕ) < U8 := by norm_num [U8]
      exact Nat.mod_lt _ hpos
    · exact h b
  · cases hs

theorem Memory.WF.set_u16 {m : Memory} (h : m.WF) {a v : ℕ} {m' : Memory}
    (hs : m.set_u16 a v = some m') : m'.WF := by
  unfold Memory.set_u16 at hs
  cases h1 : m.set_u8 a (v % U16 / U8) with
  | none => rw [h1] at hs; cases hs
  | some m1 =>
    rw [h1] at hs
    exact (h.set_u8 h1).set_u8 hs

theorem Memory.size_set_u8 {m m' : Memory} {a v : ℕ}
    (hs : m.set_u8 a v = some m') : m'.size = m.size := by
  unfold Memory.set_u8 at hs
  split at hs
  · cases hs; rfl
  · cases hs

theorem Memory.size_set_u16 {m m' : Memory} {a v : ℕ}
    (hs : m.set_u16 a v = some m') : m'.size = m.size := by
  unfold Memory.set_u16 at hs
  cases h1 : m.set_u8 a (v % U16 / U8) with
  | none => rw [h1] at hs; cases hs
  | some m1 =>
    rw [h1] at hs
    rw [Memory.size_set_u8 hs, Memory.size_set_u8 h1]

/-- A `get_u8` that succeeds on a well-formed memory returns a byte. -/
theorem Memory.WF.get_u8_lt {m : Memory} (h : m.WF) {a v : ℕ}
    (hg : m.get_u8 a = some v) : v < U8 := by
  unfold Memory.get_u8 at hg
  split at hg
  · cases hg; exact h a
  · cases hg

/-- A `get_u16` that succeeds on a well-formed memory returns a `u16`. -/
theorem Memory.WF.get_u16_lt {m : Memory} (h : m.WF) {a v : ℕ}
    (hg : m.get_u16 a = some v) : v < U16 := by
  unfold Memory.get_u16 at hg
  cases h1 : m.get_u8 a with
  | none => rw [h1] at hg; cases hg
  | some hi =>
    rw [h1] at hg
    cases h2 : m.get_u8 (a + 1) with
    | none => rw [h2] at hg; cases hg
    | some lo =>
      rw [h2] at hg
      simp at hg
      subst hg
      have hhi := h.get_u8_lt h1
      have hlo := h.get_u8_lt h2
      unfold U8 at hhi hlo
      unfold U8 U16
      omega

/-- Explicit form of a successful `set_u16`: the two big-endian bytes of
`value` land at `address` and `address + 1`. -/
theorem Memory.set_u16_some (m : Memory) (a v : ℕ) (h : a + 1 < m.size) :
    m.set_u16 a v =
      some { size := m.size,
             data := Function.update (Function.update m.data a (v % U16 / U8))
                       (a + 1) (v % U8) } := by
  have ha : a < m.size := by omega
  have hhi : v % U16 / U8 < U8 := by
    have := Nat.mod_lt v (show 0 < U16 by norm_num [U16])
    unfold U16 at this ⊢
    unfold U8
    omega
  have hlo : v % U8 < U8 := Nat.mod_lt v (by norm_num [U8])
  unfold Memory.set_u16 Memory.set_u8
  simp only [ha, if_pos, h, Option.some_bind]
  rw [Nat.mod_eq_of_lt hhi, Nat.mod_eq_of_lt hlo]
  simp [h]

/-- C8: for every flat `Memory`, value `v`, and address `a` with `a + 1`
in bounds, `set_u16 a v` followed by `get_u16 a` returns `v`, the value
being stored as the two big-endian bytes `v / 256` at `a` and `v % 256`
at `a + 1`. -/
theorem C8_set_u16_get_u16_roundtrip (m : Memory) (a v : ℕ)
    (hb : a + 1 < m.size) (hv : v < U16) :
    ∃ m', m.set_u16 a v = some m' ∧
      m'.get_u16 a = some v ∧
      m'.get_u8 a = some (v / U8) ∧
      m'.get_u8 (a + 1) = some (v % U8) := by
  have ha : a < m.size := by omega
  have hne : ¬(a = a + 1) := by omega
  have hmod : v % U16 = v := Nat.mod_eq_of_lt hv
  have hda : Function.update (Function.update m.data a (v % U16 / U8))
      (a + 1) (v % U8) a = v / U8 := by
    rw [Function.update_noteq hne, Function.update_same, hmod]
  have hdb : Function.update (Function.update m.data a (v % U16 / U8))
      (a + 1) (v % U8) (a + 1) = v % U8 := Function.update_same _ _ _
  refine ⟨_, Memory.set_u16_some m a v hb, ?_, ?_, ?_⟩
  · unfold Memory.get_u16 Memory.get_u8
    simp only [ha, hb, if_pos, hda, hdb, Option.bind_eq_bind,
      Option.some_bind, Option.some.injEq]
    simp only [U8, U16] at hv ⊢
    omega
  · unfold Memory.get_u8
    simp only [ha, if_pos, hda]
  · unfold Memory.get_u8
    simp only [hb, if_pos, hdb]

/-- Witness for C8 at the concrete input of the source's `test_memory`
test: `Memory::new(4)`, address 2, value `0x1234`. -/
theorem C8_set_u16_get_u16_roundtrip_witness :
    (2 + 1 < (Memory.new 4).size ∧ 0x1234 < U16) ∧
    (∃ m', (Memory.new 4).set_u16 2 0x1234 = some m' ∧
      m'.get_u16 2 = some 0x1234 ∧
      m'.get_u8 2 = some (0x1234 / U8) ∧
      m'.get_u8 (2 + 1) = some (0x1234 % U8)) :=
  ⟨⟨by norm_num [Memory.new], by norm_num [U16]⟩,
   C8_set_u16_get_u16_roundtrip (Memory.new 4) 2 0x1234
     (by norm_num [Memory.new]) (by norm_num [U16])⟩

/-- C2: the source's `get_from_string` maps the name `"MB"` to `FP`'s
offset 22, not to `MB`'s own offset 24 as the claim (and the spec's intent)
requires — the `"MB"` match arm returns `FP`. -/
theorem C2_get_from_string_MB_aliases_FP :
    register.get_from_string "MB" = some register.FP ∧
    register.FP = 22 ∧
    register.MB = 24 ∧
    register.get_from_string "MB" ≠ some register.MB := by
  refine ⟨by decide, rfl, rfl, by decide⟩

/-- `get_u16` from known bytes. -/
theorem Memory.get_u16_eq_of (m : Memory) (a hi lo : ℕ)
    (ha : a < m.size) (hb : a + 1 < m.size)
    (hhi : m.data a = hi) (hlo : m.data (a + 1) = lo) :
    m.get_u16 a = some (hi * U8 + lo) := by
  unfold Memory.get_u16 Memory.get_u8
  simp only [ha, hb, if_pos, hhi, hlo, Option.bind_eq_bind, Option.some_bind]

/-- Explicit evaluation of `CPU.new`: the memory is untouched (none of
the three initial writes targets `MB`) and the register file carries the
six written bytes over an otherwise zeroed array. -/
theorem CPU.new_eq (d : Device) :
    CPU.new d = some
      { memory := d
        registers := newRegisters d.len
        stack_frame_size := 0
        is_in_interrupt_handler := false } := by
  have hSP : ¬(register.SP = register.MB) := by decide
  have hFP : ¬(register.FP = register.MB) := by decide
  have hIM : ¬(register.IM = register.MB) := by decide
  have e1 : (Memory.new register.SIZE).set_u16 register.SP
      (u16sub (d.len % U16) 2) =
      some { size := (Memory.new register.SIZE).size
             data := Function.update (Function.update
                       (Memory.new register.SIZE).data
                       register.SP (u16sub (d.len % U16) 2 % U16 / U8))
                       (register.SP + 1) (u16sub (d.len % U16) 2 % U8) } :=
    Memory.set_u16_some _ _ _
      (by norm_num [Memory.new, register.SIZE, register.LIST,
        register.SP, register.FP, register.IM])
  have e2 : ({ size := (Memory.new register.SIZE).size
               data := Function.update (Function.update
                         (Memory.new register.SIZE).data
                         register.SP (u16sub (d.len % U16) 2 % U16 / U8))
                         (register.SP + 1) (u16sub (d.len % U16) 2 % U8) }
      : Memory).set_u16 register.FP (u16sub (d.len % U16) 2) =
      some { size := (Memory.new register.SIZE).size
             data := Function.update (Function.update
                       (Function.update (Function.update
                         (Memory.new register.SIZE).data
                         register.SP (u16sub (d.len % U16) 2 % U16 / U8))
                         (register.SP + 1) (u16sub (d.len % U16) 2 % U8))
                       register.FP (u16sub (d.len % U16) 2 % U16 / U8))
                       (register.FP + 1) (u16sub (d.len % U16) 2 % U8) } :=
    Memory.set_u16_some _ _ _
      (by norm_num [Memory.new, register.SIZE, register.LIST,
        register.SP, register.FP, register.IM])
  have e3 : ({ size := (Memory.new register.SIZE).size
               data := Function.update (Function.update
                         (Function.update (Function.update
                           (Memory.new register.SIZE).data
                           register.SP (u16sub (d.len % U16) 2 % U16 / U8))
                           (register.SP + 1) (u16sub (d.len % U16) 2 % U8))
                         register.FP (u16sub (d.len % U16) 2 % U16 / U8))
                         (register.FP + 1) (u16sub (d.len % U16) 2 % U8) }
      : Memory).set_u16 register.IM 0xff =
      some { size := (Memory.new register.SIZE).size
             data := Function.update (Function.update
                       (Function.update (Function.update
                         (Function.update (Function.update
                           (Memory.new register.SIZE).data
                           register.SP (u16sub (d.len % U16) 2 % U16 / U8))
                           (register.SP + 1) (u16sub (d.len % U16) 2 % U8))
                         register.FP (u16sub (d.len % U16) 2 % U16 / U8))
                         (register.FP + 1) (u16sub (d.len % U16) 2 % U8))
                       register.IM (0xff % U16 / U8))
                       (register.IM + 1) (0xff % U8) } :=
    Memory.set_u16_some _ _ _
      (by norm_num [Memory.new, register.SIZE, register.LIST,
        register.SP, register.FP, register.IM])
  simp only [CPU.new, CPU.set_register, if_neg hSP, if_neg hFP, if_neg hIM,
    e1, Option.bind_eq_bind, Option.some_bind, e2, e3]
  rfl

set_option maxRecDepth 8000 in
/-- C10: `MemoryMapper::len` is the constant `0xffff` whatever regions are
mapped, and a CPU built directly over a mapper therefore starts with
`SP = FP = 0xfffd`. -/
theorem C10_mapper_len_constant (regions : List Region) :
    (Device.mapper regions).len = 0xffff ∧
    ∃ cpu, CPU.new (Device.mapper regions) = some cpu ∧
      cpu.get_register register.SP = some 0xfffd ∧
      cpu.get_register register.FP = some 0xfffd := by
  refine ⟨rfl, ⟨_, CPU.new_eq (Device.mapper regions), ?_, ?_⟩⟩ <;>
    simp [CPU.get_register, newRegisters, Memory.get_u16, Memory.get_u8,
      Function.update_apply, register.SIZE, register.LIST, register.IP,
      register.ACC, register.R1, register.R2, register.R3, register.R4,
      register.R5, register.R6, register.R7, register.R8, register.SP,
      register.FP, register.MB, register.IM, u16sub, U16, U8, Device.len]

set_option maxRecDepth 4000 in
/-- C9: a newly constructed CPU has `SP = FP = memory.len() - 2`,
interrupt mask `IM = 0x00ff` (so, in the mask test `(1 << n) & IM` of
`handle_interrupt`, interrupts 0–7 are enabled and 8–15 are masked even
though the vector has 16 entries), and every other register — `IP`, `ACC`,
`R1..R8`, and `MB` — equal to 0. -/
theorem C9_cpu_new_initial_state (d : Device)
    (h2 : 2 ≤ d.len) (hU : d.len < U16) :
    ∃ cpu, CPU.new d = some cpu ∧
      cpu.get_register register.SP = some (d.len - 2) ∧
      cpu.get_register register.FP = some (d.len - 2) ∧
      cpu.get_register register.IM = some 0xff ∧
      (∀ r ∈ [register.IP, register.ACC, register.R1, register.R2,
              register.R3, register.R4, register.R5, register.R6,
              register.R7, register.R8, register.MB],
        cpu.get_register r = some 0) ∧
      (∀ n, n < 16 → (¬((1 <<< n) &&& 0xff = 0) ↔ n < 8)) := by
  refine ⟨_, CPU.new_eq d, ?_, ?_, ?_, ?_, ?_⟩
  · simp [CPU.get_register, newRegisters, Memory.get_u16, Memory.get_u8,
      Function.update_apply, Memory.new, register.SIZE, register.LIST,
      register.IP, register.ACC, register.R1, register.R2, register.R3,
      register.R4, register.R5, register.R6, register.R7, register.R8,
      register.SP, register.FP, register.MB, register.IM]
    simp only [u16sub, U8, U16] at hU ⊢
    omega
  · simp [CPU.get_register, newRegisters, Memory.get_u16, Memory.get_u8,
      Function.update_apply, Memory.new, register.SIZE, register.LIST,
      register.IP, register.ACC, register.R1, register.R2, register.R3,
      register.R4, register.R5, register.R6, register.R7, register.R8,
      register.SP, register.FP, register.MB, register.IM]
    simp only [u16sub, U8, U16] at hU ⊢
    omega
  · simp [CPU.get_register, newRegisters, Memory.get_u16, Memory.get_u8,
      Function.update_apply, Memory.new, register.SIZE, register.LIST,
      register.IP, register.ACC, register.R1, register.R2, register.R3,
      register.R4, register.R5, register.R6, register.R7, register.R8,
      register.SP, register.FP, register.MB, register.IM, U8, U16]
  · intro r hr
    simp only [List.mem_cons, List.not_mem_nil, or_false] at hr
    rcases hr with h | h | h | h | h | h | h | h | h | h | h <;> subst h <;>
      simp [CPU.get_register, newRegisters, Memory.get_u16, Memory.get_u8,
        Function.update_apply, Memory.new, register.SIZE, register.LIST,
        register.IP, register.ACC, register.R1, register.R2, register.R3,
        register.R4, register.R5, register.R6, register.R7, register.R8,
        register.SP, register.FP, register.MB, register.IM]
  · intro n hn
    interval_cases n <;> decide

/-- Witness for C9: a CPU over a 64-byte flat memory (the configuration of
the source's `push_state` test) starts with `SP = FP = 62`. -/
theorem C9_cpu_new_initial_state_witness :
    (2 ≤ (Device.flat (Memory.new 64)).len ∧
      (Device.flat (Memory.new 64)).len < U16) ∧
    (∃ cpu, CPU.new (Device.flat (Memory.new 64)) = some cpu ∧
      cpu.get_register register.SP =
        some ((Device.flat (Memory.new 64)).len - 2) ∧
      cpu.get_register register.FP =
        some ((Device.flat (Memory.new 64)).len - 2) ∧
      cpu.get_register register.IM = some 0xff ∧
      (∀ r ∈ [register.IP, register.ACC, register.R1, register.R2,
              register.R3, register.R4, register.R5, register.R6,
              register.R7, register.R8, register.MB],
        cpu.get_register r = some 0) ∧
      (∀ n, n < 16 → (¬((1 <<< n) &&& 0xff = 0) ↔ n < 8))) :=
  ⟨⟨by decide, by decide⟩,
   C9_cpu_new_initial_state (Device.flat (Memory.new 64))
     (by decide) (by decide)⟩

/-- C1 (the failing instance): `LSF_REG_LIT8` has declared size 3, but a
fetch-and-execute of it advances `IP` from 0 to 4, because the handler
fetches the "8-bit" shift literal with `fetch16`; `RSF_REG_LIT8` likewise.
The byte programs are `LSF R1, 3` and `RSF R1, 1`, laid out exactly as in
the source's `lst_reg_lit` / `rst_reg_lit` tests. -/
theorem C1_shift_lit8_ip_advances_by_four :
    instruction.LSF_REG_LIT8.size = 3 ∧
    instruction.RSF_REG_LIT8.size = 3 ∧
    ((CPU.mk (Device.flat (Memory.ofBytes [0x40, 4, 0, 3]))
        (Memory.new register.SIZE) 0 false).step.bind
      (fun st => st.1.get_register register.IP)) = some 4 ∧
    ((CPU.mk (Device.flat (Memory.ofBytes [0x42, 4, 0, 1]))
        (Memory.new register.SIZE) 0 false).step.bind
      (fun st => st.1.get_register register.IP)) = some 4 ∧
    (4 : ℕ) ≠ 0 + instruction.LSF_REG_LIT8.size := by
  decide

theorem Operator.priority_lt_max (o : Operator) : o.priority < USIZE_MAX := by
  cases o <;> decide

theorem group_single (x : Ty) : group_binary_operations [x] = some x := by
  rw [group_binary_operations.eq_def]
  norm_num

theorem group_triple (a b : Ty) (o : Operator) :
    group_binary_operations [a, Ty.Operator o, b] =
      some (Ty.BinaryOperation (Ty.Operator o) a b) := by
  rw [group_binary_operations.eq_def]
  rw [scanMinOp.eq_def]
  simp only [List.length_cons, List.length_nil]
  norm_num [Operator.priority_lt_max]
  rw [scanMinOp.eq_def]
  norm_num [List.take, List.drop, group_single]

theorem group_five_le (a b c : Ty) (o1 o2 : Operator)
    (h : o1.priority ≤ o2.priority) :
    group_binary_operations
        [a, Ty.Operator o1, b, Ty.Operator o2, c] =
      some (Ty.BinaryOperation (Ty.Operator o1) a
        (Ty.BinaryOperation (Ty.Operator o2) b c)) := by
  rw [group_binary_operations.eq_def]
  rw [scanMinOp.eq_def]
  simp only [List.length_cons, List.length_nil]
  norm_num [Operator.priority_lt_max]
  rw [scanMinOp.eq_def]
  norm_num [Nat.not_lt.mpr h]
  rw [scanMinOp.eq_def]
  norm_num [List.take, List.drop, group_single, group_triple]

theorem group_five_lt (a b c : Ty) (o1 o2 : Operator)
    (h : o2.priority < o1.priority) :
    group_binary_operations
        [a, Ty.Operator o1, b, Ty.Operator o2, c] =
      some (Ty.BinaryOperation (Ty.Operator o2)
        (Ty.BinaryOperation (Ty.Operator o1) a b) c) := by
  rw [group_binary_operations.eq_def]
  rw [scanMinOp.eq_def]
  simp only [List.length_cons, List.length_nil]
  norm_num [Operator.priority_lt_max]
  rw [scanMinOp.eq_def]
  norm_num [h]
  rw [scanMinOp.eq_def]
  norm_num [List.take, List.drop, group_single, group_triple]

theorem scan_five (a b c : Ty) (o1 o2 : Operator) :
    scanMinOp [a, Ty.Operator o1, b, Ty.Operator o2, c] 1 1 USIZE_MAX =
      some (if o2.priority < o1.priority then 3 else 1,
            min o1.priority o2.priority) := by
  rw [scanMinOp.eq_def]
  simp only [List.length_cons, List.length_nil]
  norm_num [Operator.priority_lt_max]
  rw [scanMinOp.eq_def]
  by_cases h : o2.priority < o1.priority
  · norm_num [h]
    rw [scanMinOp.eq_def]
    norm_num [Nat.min_eq_right (le_of_lt h)]
  · norm_num [h]
    rw [scanMinOp.eq_def]
    norm_num [Nat.min_eq_left (Nat.not_lt.mp h)]

/-- C3 (amended): `group_binary_operations` splits the flat list at the
leftmost lowest-priority operator (the scan keeps position 1 on a
priority tie and moves only for a strictly lower priority), which groups
an equal-or-rising priority pair as `a op1 (b op2 c)` — the
right-associated tree — and a falling pair as `(a op1 b) op2 c`; in
particular `[a + b * c]` parses as `a + (b * c)`. -/
theorem C3_group_binary_operations_leftmost_split (a b c : Ty)
    (o1 o2 : Operator) :
    scanMinOp [a, Ty.Operator o1, b, Ty.Operator o2, c] 1 1 USIZE_MAX =
      some (if o2.priority < o1.priority then 3 else 1,
            min o1.priority o2.priority) ∧
    (o1.priority ≤ o2.priority →
      group_binary_operations [a, Ty.Operator o1, b, Ty.Operator o2, c] =
        some (Ty.BinaryOperation (Ty.Operator o1) a
          (Ty.BinaryOperation (Ty.Operator o2) b c))) ∧
    (o2.priority < o1.priority →
      group_binary_operations [a, Ty.Operator o1, b, Ty.Operator o2, c] =
        some (Ty.BinaryOperation (Ty.Operator o2)
          (Ty.BinaryOperation (Ty.Operator o1) a b) c)) ∧
    group_binary_operations
        [a, Ty.Operator Operator.Plus, b, Ty.Operator Operator.Star, c] =
      some (Ty.BinaryOperation (Ty.Operator Operator.Plus) a
        (Ty.BinaryOperation (Ty.Operator Operator.Star) b c)) :=
  ⟨scan_five a b c o1 o2,
   group_five_le a b c o1 o2,
   group_five_lt a b c o1 o2,
   group_five_le a b c Operator.Plus Operator.Star (by decide)⟩

/-- Witness for C3 at concrete operands: `[$1 + $2 * $3]` groups as
`1 + (2 * 3)` and `[$1 * $2 + $3]` as `(1 * 2) + 3`. -/
theorem C3_group_binary_operations_leftmost_split_witness :
    group_binary_operations [Ty.HexLiteral 1, Ty.Operator Operator.Plus,
        Ty.HexLiteral 2, Ty.Operator Operator.Star, Ty.HexLiteral 3] =
      some (Ty.BinaryOperation (Ty.Operator Operator.Plus) (Ty.HexLiteral 1)
        (Ty.BinaryOperation (Ty.Operator Operator.Star) (Ty.HexLiteral 2)
          (Ty.HexLiteral 3))) ∧
    group_binary_operations [Ty.HexLiteral 1, Ty.Operator Operator.Star,
        Ty.HexLiteral 2, Ty.Operator Operator.Plus, Ty.HexLiteral 3] =
      some (Ty.BinaryOperation (Ty.Operator Operator.Plus)
        (Ty.BinaryOperation (Ty.Operator Operator.Star) (Ty.HexLiteral 1)
          (Ty.HexLiteral 2)) (Ty.HexLiteral 3)) :=
  ⟨(C3_group_binary_operations_leftmost_split (Ty.HexLiteral 1)
      (Ty.HexLiteral 2) (Ty.HexLiteral 3) Operator.Plus
      Operator.Star).2.1 (by decide),
   (C3_group_binary_operations_leftmost_split (Ty.HexLiteral 1)
      (Ty.HexLiteral 2) (Ty.HexLiteral 3) Operator.Star
      Operator.Plus).2.2.1 (by decide)⟩

/-- Counterexample to C3 as stated: for the two equal-priority operators
`+` and `-`, the list `[$1, +, $2, -, $3]` groups right-associatively as
`1 + (2 - 3)`, not as the claimed left-associative `(1 + 2) - 3`.  (The
source's own `group_binary_operations` test expects exactly this
right-associated tree.) -/
theorem C3_group_binary_operations_counterexample :
    group_binary_operations [Ty.HexLiteral 1, Ty.Operator Operator.Plus,
        Ty.HexLiteral 2, Ty.Operator Operator.Minus, Ty.HexLiteral 3] =
      some (Ty.BinaryOperation (Ty.Operator Operator.Plus) (Ty.HexLiteral 1)
        (Ty.BinaryOperation (Ty.Operator Operator.Minus) (Ty.HexLiteral 2)
          (Ty.HexLiteral 3))) ∧
    group_binary_operations [Ty.HexLiteral 1, Ty.Operator Operator.Plus,
        Ty.HexLiteral 2, Ty.Operator Operator.Minus, Ty.HexLiteral 3] ≠
      some (Ty.BinaryOperation (Ty.Operator Operator.Minus)
        (Ty.BinaryOperation (Ty.Operator Operator.Plus) (Ty.HexLiteral 1)
          (Ty.HexLiteral 2)) (Ty.HexLiteral 3)) := by
  have h := group_five_le (Ty.HexLiteral 1) (Ty.HexLiteral 2)
    (Ty.HexLiteral 3) Operator.Plus Operator.Minus (by decide)
  exact ⟨h, by rw [h]; decide⟩

theorem oneOfGo_all_fail {I O : Type} (input : I)
    (ps : List (I → ParseResult O)) (es : List ParseError)
    (h : ps.map (fun p => p input) = es.map Except.error) :
    ∀ acc, oneOfGo input acc ps =
      Except.error (ParseError.new (oneOfMessage (acc ++ es))) := by
  induction ps generalizing es with
  | nil =>
    cases es with
    | nil => intro acc; simp [oneOfGo]
    | cons e es' => simp at h
  | cons p ps' ih =>
    cases es with
    | nil => simp at h
    | cons e es' =>
      simp only [List.map_cons, List.cons.injEq] at h
      intro acc
      rw [oneOfGo, h.1]
      show oneOfGo input (acc ++ [e]) ps' = _
      rw [ih es' h.2 (acc ++ [e])]
      simp

/-- C7 (amended): when every alternative handed to `Parser::one_of` fails,
the combinator returns a composite `ParseError` whose message aggregates
the child error messages but whose `index` field is the constant 0 set by
`ParseError::new` — not the maximum-depth failure index among the
children. -/
theorem C7_one_of_error_aggregates_with_index_zero {I O : Type}
    (input : I) (ps : List (I → ParseResult O)) (es : List ParseError)
    (h : ps.map (fun p => p input) = es.map Except.error) :
    Parser.one_of ps input =
      Except.error { message := oneOfMessage es, index := 0 } := by
  rw [Parser.one_of, oneOfGo_all_fail input ps es h []]
  rfl

/-- Witness for C7: a single failing alternative (failure index 3)
produces the aggregated message with index 0. -/
theorem C7_one_of_error_witness :
    Parser.one_of
        ([fun _ => Except.error { message := "x", index := 3 }] :
          List (Unit → ParseResult Unit)) () =
      Except.error
        { message := oneOfMessage [{ message := "x", index := 3 }]
          index := 0 } :=
  C7_one_of_error_aggregates_with_index_zero ()
    [fun _ => Except.error { message := "x", index := 3 }]
    [{ message := "x", index := 3 }] rfl

/-- Counterexample to C7 as stated: with two alternatives failing at
indices 5 and 2 the claim demands a composite error at the max-depth
index 5, but `one_of` builds its error with `ParseError::new`, whose
index is 0. -/
theorem C7_one_of_error_counterexample :
    Parser.one_of
        ([fun _ => Except.error { message := "first failure", index := 5 },
          fun _ => Except.error { message := "second failure", index := 2 }] :
          List (Unit → ParseResult Unit)) () =
      Except.error
        { message :=
            oneOfMessage [{ message := "first failure", index := 5 },
                          { message := "second failure", index := 2 }]
          index := 0 } ∧
    (0 : ℕ) ≠ 5 :=
  ⟨rfl, by decide⟩

theorem applyMaps_eq (calls : List (Device × ℕ × ℕ × Bool))
    (rs : List Region) :
    applyMaps rs calls = calls.reverse.map mkRegion ++ rs := by
  induction calls generalizing rs with
  | nil => simp [applyMaps]
  | cons c cs ih =>
    have step : applyMaps rs (c :: cs) =
        applyMaps (MemoryMapper.map rs c.1 c.2.1 c.2.2.1 c.2.2.2) cs := rfl
    rw [step, ih]
    simp [List.reverse_cons, List.map_append, List.append_assoc,
      MemoryMapper.map, mkRegion]

theorem find?_map_mkRegion (l : List (Device × ℕ × ℕ × Bool)) (a : ℕ) :
    (l.map mkRegion).find? (fun r => r.containsAddr a) =
      (l.find? (fun c => decide (c.2.1 ≤ a ∧ a ≤ c.2.2.1))).map mkRegion := by
  induction l with
  | nil => rfl
  | cons c cs ih =>
    simp only [List.map_cons, List.find?_cons]
    have hc : (mkRegion c).containsAddr a =
        decide (c.2.1 ≤ a ∧ a ≤ c.2.2.1) := rfl
    rw [hc]
    cases h : decide (c.2.1 ≤ a ∧ a ≤ c.2.2.1) <;> simp [ih]

theorem get_u8_list_eq (rs : List Region) (a : ℕ) :
    Region.get_u8_list rs a =
      (find_region rs a).bind
        (fun r => r.device.get_u8 (if r.remap then a - r.rstart else a)) := by
  induction rs with
  | nil => rfl
  | cons r rest ih =>
    obtain ⟨d, s, e, rm⟩ := r
    by_cases h : s ≤ a ∧ a ≤ e
    · simp [Region.get_u8_list, find_region, List.find?_cons,
        Region.containsAddr, Region.device, Region.rstart, Region.remap, h]
    · simp only [Region.get_u8_list, if_neg h]
      rw [ih]
      simp only [find_region, List.find?_cons]
      have hc : (Region.mk d s e rm).containsAddr a = false := by
        simp only [Region.containsAddr, Region.rstart, Region.rend,
          decide_eq_false_iff_not]
        exact h
      rw [hc]

theorem get_u16_list_eq (rs : List Region) (a : ℕ) :
    Region.get_u16_list rs a =
      (find_region rs a).bind
        (fun r => r.device.get_u16 (if r.remap then a - r.rstart else a)) := by
  induction rs with
  | nil => rfl
  | cons r rest ih =>
    obtain ⟨d, s, e, rm⟩ := r
    by_cases h : s ≤ a ∧ a ≤ e
    · simp [Region.get_u16_list, find_region, List.find?_cons,
        Region.containsAddr, Region.device, Region.rstart, Region.remap, h]
    · simp only [Region.get_u16_list, if_neg h]
      rw [ih]
      simp only [find_region, List.find?_cons]
      have hc : (Region.mk d s e rm).containsAddr a = false := by
        simp only [Region.containsAddr, Region.rstart, Region.rend,
          decide_eq_false_iff_not]
        exact h
      rw [hc]

theorem set_u8_list_eq (rs : List Region) (a v : ℕ) :
    Region.set_u8_list rs a v =
      (find_region rs a).bind
        (fun r =>
          (r.device.set_u8 (if r.remap then a - r.rstart else a) v).map
            (fun d =>
              rs.set (rs.findIdx (fun r => r.containsAddr a))
                (Region.mk d r.rstart r.rend r.remap))) := by
  induction rs with
  | nil => rfl
  | cons r rest ih =>
    obtain ⟨d, s, e, rm⟩ := r
    by_cases h : s ≤ a ∧ a ≤ e
    · simp [Region.set_u8_list, find_region, List.find?_cons,
        List.findIdx_cons, Region.containsAddr, Region.device,
        Region.rstart, Region.rend, Region.remap, h]
      cases d.set_u8 (if rm then a - s else a) v <;> simp [List.set]
    · simp only [Region.set_u8_list, if_neg h]
      rw [ih]
      simp only [find_region, List.find?_cons]
      have hc : (Region.mk d s e rm).containsAddr a = false := by
        simp only [Region.containsAddr, Region.rstart, Region.rend,
          decide_eq_false_iff_not]
        exact h
      rw [hc]
      cases hf : List.find? (fun r => r.containsAddr a) rest with
      | none => rfl
      | some r0 =>
        simp only [Option.some_bind, Option.bind_eq_bind]
        cases hs : r0.device.set_u8 (if r0.remap then a - r0.rstart else a) v with
        | none => rfl
        | some d0 =>
          simp [List.findIdx_cons, hc, List.set]

theorem set_u16_list_eq (rs : List Region) (a v : ℕ) :
    Region.set_u16_list rs a v =
      (find_region rs a).bind
        (fun r =>
          (r.device.set_u16 (if r.remap then a - r.rstart else a) v).map
            (fun d =>
              rs.set (rs.findIdx (fun r => r.containsAddr a))
                (Region.mk d r.rstart r.rend r.remap))) := by
  induction rs with
  | nil => rfl
  | cons r rest ih =>
    obtain ⟨d, s, e, rm⟩ := r
    by_cases h : s ≤ a ∧ a ≤ e
    · simp [Region.set_u16_list, find_region, List.find?_cons,
        List.findIdx_cons, Region.containsAddr, Region.device,
        Region.rstart, Region.rend, Region.remap, h]
      cases d.set_u16 (if rm then a - s else a) v <;> simp [List.set]
    · simp only [Region.set_u16_list, if_neg h]
      rw [ih]
      simp only [find_region, List.find?_cons]
      have hc : (Region.mk d s e rm).containsAddr a = false := by
        simp only [Region.containsAddr, Region.rstart, Region.rend,
          decide_eq_false_iff_not]
        exact h
      rw [hc]
      cases hf : List.find? (fun r => r.containsAddr a) rest with
      | none => rfl
      | some r0 =>
        simp only [Option.some_bind, Option.bind_eq_bind]
        cases hs : r0.device.set_u16 (if r0.remap then a - r0.rstart else a) v with
        | none => rfl
        | some d0 =>
          simp [List.findIdx_cons, hc, List.set]

/-- C5: after any sequence of `map` calls (which prepend to the deque),
`find_region` picks the most recently mapped region whose `[start, end]`
interval contains the address — the first hit of a front-to-back scan over
the reversed call sequence — and each of `get_u8` / `get_u16` / `set_u8` /
`set_u16` on the mapper delegates to the selected region's device at
`a - start` when the region has `remap` set and at `a` otherwise. -/
theorem C5_mapper_most_recent_region_dispatch
    (calls : List (Device × ℕ × ℕ × Bool)) (rs : List Region) (a v : ℕ) :
    applyMaps [] calls = calls.reverse.map mkRegion ∧
    find_region (applyMaps [] calls) a =
      (calls.reverse.find? (fun c => decide (c.2.1 ≤ a ∧ a ≤ c.2.2.1))).map
        mkRegion ∧
    Device.get_u8 (Device.mapper rs) a =
      (find_region rs a).bind
        (fun r => r.device.get_u8 (if r.remap then a - r.rstart else a)) ∧
    Device.get_u16 (Device.mapper rs) a =
      (find_region rs a).bind
        (fun r => r.device.get_u16 (if r.remap then a - r.rstart else a)) ∧
    Device.set_u8 (Device.mapper rs) a v =
      (find_region rs a).bind
        (fun r =>
          (r.device.set_u8 (if r.remap then a - r.rstart else a) v).map
            (fun d => Device.mapper
              (rs.set (rs.findIdx (fun r => r.containsAddr a))
                (Region.mk d r.rstart r.rend r.remap)))) ∧
    Device.set_u16 (Device.mapper rs) a v =
      (find_region rs a).bind
        (fun r =>
          (r.device.set_u16 (if r.remap then a - r.rstart else a) v).map
            (fun d => Device.mapper
              (rs.set (rs.findIdx (fun r => r.containsAddr a))
                (Region.mk d r.rstart r.rend r.remap)))) := by
  refine ⟨by simpa using applyMaps_eq calls [], ?_, ?_, ?_, ?_, ?_⟩
  · rw [applyMaps_eq calls []]
    simp only [List.append_nil]
    rw [find_region, find?_map_mkRegion]
  · show Region.get_u8_list rs a = _
    exact get_u8_list_eq rs a
  · show Region.get_u16_list rs a = _
    exact get_u16_list_eq rs a
  · show (Region.set_u8_list rs a v).map Device.mapper = _
    rw [set_u8_list_eq]
    cases find_region rs a with
    | none => rfl
    | some r =>
      simp [Option.map_map]
      rfl
  · show (Region.set_u16_list rs a v).map Device.mapper = _
    rw [set_u16_list_eq]
    cases find_region rs a with
    | none => rfl
    | some r =>
      simp [Option.map_map]
      rfl


/-- A successful `set_u8` stores `v` (as a byte) at the written address. -/
theorem Memory.get_u8_set_u8_self {m m' : Memory} {a v : ℕ}
    (h : m.set_u8 a v = some m') : m'.get_u8 a = some (v % U8) := by
  unfold Memory.set_u8 at h
  split at h
  · cases h
    simp [Memory.get_u8, Function.update_same]
    assumption
  · cases h

/-- Shape of a successful `set_u8` on a banked device: the current bank is
read, updated, and written back; nothing else changes. -/
theorem banked_set_u8_eq {b1 size a v : ℕ} {banks : List Memory}
    {d' : Device}
    (hset : (Device.banked b1 banks size).set_u8 a v = some d') :
    ∃ bank bank', banks.get? b1 = some bank ∧ bank.set_u8 a v = some bank' ∧
      d' = Device.banked b1 (banks.set b1 bank') size := by
  rw [Device.set_u8] at hset
  cases hg : banks.get? b1 with
  | none => rw [hg] at hset; cases hset
  | some bank =>
    rw [hg] at hset
    simp only [Option.bind_eq_bind, Option.some_bind] at hset
    cases hs : bank.set_u8 a v with
    | none => rw [hs] at hset; cases hset
    | some bank2 =>
      rw [hs] at hset
      simp only [Option.some_bind, Option.some.injEq] at hset
      exact ⟨bank, bank2, rfl, hs, hset.symm⟩

/-- C6: writing `b1` to `MB` through `set_register` propagates `b1` to the
memory via `set_mb`, making bank `b1` current on a banked device, while a
write to any other register leaves the memory untouched; consequently a
write at address `a` performed with `MB = b1` leaves bank `b2`'s byte at
`a` unchanged, and switching `MB` back to `b1` makes a read at `a` return
the written value. -/
theorem C6_set_register_mb_bank_switching
    (banks : List Memory) (b1 b2 size a v : ℕ)
    (h12 : b1 ≠ b2) (hb1 : b1 < U16) (hb2 : b2 < U16) :
    (∀ (cpu : CPU) (mb : ℕ) (cpu' : CPU),
      cpu.memory = Device.banked mb banks size →
      cpu.set_register register.MB b1 = some cpu' →
      cpu'.memory = Device.banked b1 banks size ∧
      (∀ x, cpu'.memory.get_u8 x =
        (banks.get? b1).bind (fun bank => bank.get_u8 x))) ∧
    (∀ (cpu : CPU) (reg w : ℕ) (cpu' : CPU), reg ≠ register.MB →
      cpu.set_register reg w = some cpu' →
      cpu'.memory = cpu.memory) ∧
    (∀ d', (Device.banked b1 banks size).set_u8 a v = some d' →
      (d'.set_mb b2).get_u8 a =
        (banks.get? b2).bind (fun bank => bank.get_u8 a) ∧
      ((d'.set_mb b2).set_mb b1).get_u8 a = some (v % U8)) := by
  refine ⟨?_, ?_, ?_⟩
  · intro cpu mb cpu' hmem hset
    rw [CPU.set_register, if_pos rfl] at hset
    cases hrs : Memory.set_u16 cpu.registers register.MB b1 with
    | none => rw [hrs] at hset; cases hset
    | some rs =>
      rw [hrs] at hset
      simp only [Option.bind_eq_bind, Option.some_bind, Option.some.injEq]
        at hset
      have hmem' : cpu'.memory = cpu.memory.set_mb b1 := by rw [← hset]
      rw [hmem, Device.set_mb, Nat.mod_eq_of_lt hb1] at hmem'
      refine ⟨hmem', ?_⟩
      intro x
      rw [hmem']
      rfl
  · intro cpu reg w cpu' hne hset
    rw [CPU.set_register, if_neg hne] at hset
    cases hrs : Memory.set_u16 cpu.registers reg w with
    | none => rw [hrs] at hset; cases hset
    | some rs =>
      rw [hrs] at hset
      simp only [Option.bind_eq_bind, Option.some_bind, Option.some.injEq]
        at hset
      rw [← hset]
  · intro d' hset
    obtain ⟨bank, bank2, hg, hs, rfl⟩ := banked_set_u8_eq hset
    have hlt : b1 < banks.length := by
      rcases List.get?_eq_some.mp hg with ⟨hl, _⟩
      exact hl
    constructor
    · rw [Device.set_mb, Device.get_u8, Nat.mod_eq_of_lt hb2]
      have : (banks.set b1 bank2).get? b2 = banks.get? b2 := by
        rw [List.get?_eq_getElem?, List.get?_eq_getElem?,
          List.getElem?_set_ne h12]
      rw [this]
      rfl
    · rw [Device.set_mb, Device.set_mb, Device.get_u8,
        Nat.mod_eq_of_lt hb1]
      have : (banks.set b1 bank2).get? b1 = some bank2 := by
        rw [List.get?_eq_getElem?, List.getElem?_set_eq_of_lt bank2 hlt]
      rw [this]
      simp only [Option.bind_eq_bind, Option.some_bind]
      exact Memory.get_u8_set_u8_self hs

/-- Witness for C6 at a concrete two-bank configuration
(`banks = [Memory.new 1, Memory.new 1]`, `b1 = 0`, `b2 = 1`, writing 8
at address 0). -/
theorem C6_set_register_mb_bank_switching_witness :
    (∀ (cpu : CPU) (mb : ℕ) (cpu' : CPU),
      cpu.memory = Device.banked mb [Memory.new 1, Memory.new 1] 1 →
      cpu.set_register register.MB 0 = some cpu' →
      cpu'.memory = Device.banked 0 [Memory.new 1, Memory.new 1] 1 ∧
      (∀ x, cpu'.memory.get_u8 x =
        ([Memory.new 1, Memory.new 1].get? 0).bind
          (fun bank => bank.get_u8 x))) ∧
    (∀ (cpu : CPU) (reg w : ℕ) (cpu' : CPU), reg ≠ register.MB →
      cpu.set_register reg w = some cpu' →
      cpu'.memory = cpu.memory) ∧
    (∀ d', (Device.banked 0 [Memory.new 1, Memory.new 1] 1).set_u8 0 8 =
        some d' →
      (d'.set_mb 1).get_u8 0 =
        ([Memory.new 1, Memory.new 1].get? 1).bind
          (fun bank => bank.get_u8 0) ∧
      ((d'.set_mb 1).set_mb 0).get_u8 0 = some (8 % U8)) :=
  C6_set_register_mb_bank_switching [Memory.new 1, Memory.new 1] 0 1 1 0 8
    (by decide) (by decide) (by decide)

theorem Memory.set_u16_bounds {m m' : Memory} {a v : ℕ}
    (h : m.set_u16 a v = some m') : a + 1 < m.size := by
  unfold Memory.set_u16 Memory.set_u8 at h
  split at h
  · simp only [Option.bind_eq_bind, Option.some_bind] at h
    split at h
    · assumption
    · cases h
  · cases h

theorem Memory.set_u16_eq_some {m m' : Memory} {a v : ℕ}
    (h : m.set_u16 a v = some m') :
    m' = { size := m.size
           data := Function.update (Function.update m.data a (v % U16 / U8))
                     (a + 1) (v % U8) } := by
  have hb := Memory.set_u16_bounds h
  rw [Memory.set_u16_some m a v hb] at h
  exact (Option.some.injEq _ _ ▸ h).symm

theorem Memory.get_u16_set_u16_same {m m' : Memory} {a v : ℕ}
    (h : m.set_u16 a v = some m') : m'.get_u16 a = some (v % U16) := by
  have hb := Memory.set_u16_bounds h
  have he := Memory.set_u16_eq_some h
  have ha : a < m.size := by omega
  have hne : ¬(a = a + 1) := by omega
  subst he
  unfold Memory.get_u16 Memory.get_u8
  simp only [ha, hb, if_pos, Option.bind_eq_bind, Option.some_bind]
  rw [Function.update_noteq hne, Function.update_same, Function.update_same]
  congr 1
  have h16 : 0 < U16 := by norm_num [U16]
  have := Nat.mod_lt v h16
  simp only [U8, U16] at *
  omega

theorem Memory.data_set_u16_other {m m' : Memory} {a v x : ℕ}
    (h : m.set_u16 a v = some m') (hx1 : x ≠ a) (hx2 : x ≠ a + 1) :
    m'.data x = m.data x := by
  have he := Memory.set_u16_eq_some h
  subst he
  simp only [Function.update_noteq hx2, Function.update_noteq hx1]

theorem Memory.get_u8_set_u16_other {m m' : Memory} {a v x : ℕ}
    (h : m.set_u16 a v = some m') (hx1 : x ≠ a) (hx2 : x ≠ a + 1) :
    m'.get_u8 x = m.get_u8 x := by
  have hsz : m'.size = m.size := Memory.size_set_u16 h
  unfold Memory.get_u8
  rw [hsz, Memory.data_set_u16_other h hx1 hx2]

theorem Memory.get_u16_set_u16_disjoint {m m' : Memory} {a v b : ℕ}
    (h : m.set_u16 a v = some m') (hd : a + 2 ≤ b ∨ b + 2 ≤ a) :
    m'.get_u16 b = m.get_u16 b := by
  unfold Memory.get_u16
  rw [Memory.get_u8_set_u16_other h (by omega) (by omega),
    Memory.get_u8_set_u16_other h (by omega) (by omega)]

/-- On a CPU whose memory is a flat `Memory`, `set_register` only updates
the register file: even an `MB` write leaves a flat memory unchanged
(`set_mb` is a no-op there). -/
theorem CPU.set_register_flat {c : CPU} {m : Memory}
    (hm : c.memory = Device.flat m) {reg : ℕ} (v : ℕ)
    {rs : Memory} (hrs : c.registers.set_u16 reg v = some rs) :
    c.set_register reg v = some { c with registers := rs } := by
  obtain ⟨mem, regs, sfs, ih⟩ := c
  simp only at hm hrs
  subst hm
  rw [CPU.set_register]
  split
  · show (Memory.set_u16 regs reg v).bind _ = _
    rw [hrs]
    rfl
  · show (Memory.set_u16 regs reg v).bind _ = _
    rw [hrs]
    rfl

/-- Exactness of wrapping subtraction in the in-bounds regime. -/
theorem u16sub_eq {a b : ℕ} (hb : b ≤ a) (ha : a < U16) :
    u16sub a b = a - b := by
  unfold u16sub U16 at *
  omega

/-- Exactness of wrapping addition in the in-bounds regime. -/
theorem u16add_eq {a b : ℕ} (h : a + b < U16) : u16add a b = a + b := by
  unfold u16add U16 at *
  omega


set_option maxRecDepth 2000 in
/-- Forward-execution spec of `push_to_stack` on a flat memory: the value
lands at `SP`, `SP` drops by 2, `stack_frame_size` grows by 2, and nothing
else changes. -/
theorem CPU.push_to_stack_spec {c : CPU} {m : Memory} {sp : ℕ} (v : ℕ)
    (hm : c.memory = Device.flat m)
    (hsp : c.get_register register.SP = some sp)
    (hsz : c.registers.size = register.SIZE)
    (hlb : 2 ≤ sp) (hub : sp + 2 ≤ m.size) (hU : m.size ≤ U16) :
    ∃ c' m', c.push_to_stack v = some c' ∧
      c'.memory = Device.flat m' ∧
      m.set_u16 sp v = some m' ∧
      c'.registers.size = register.SIZE ∧
      (c.registers.WF → c'.registers.WF) ∧
      c'.get_register register.SP = some (sp - 2) ∧
      (∀ x, x ≠ register.SP → x ≠ register.SP + 1 →
        c'.registers.data x = c.registers.data x) ∧
      c'.stack_frame_size = u16add c.stack_frame_size 2 := by
  have hspU : sp < U16 := by omega
  have hsub : u16sub sp 2 = sp - 2 := u16sub_eq hlb hspU
  have hb1 : sp + 1 < m.size := by omega
  have hmem := Memory.set_u16_some m sp v hb1
  have hreg21 : register.SP + 1 < c.registers.size := by
    rw [hsz]
    decide
  have hrs := Memory.set_u16_some c.registers register.SP (u16sub sp 2)
    hreg21
  obtain ⟨mem, regs, sfs, ih⟩ := c
  simp only at hm hsp hsz hrs hreg21
  subst hm
  refine ⟨{ memory := Device.flat
              { size := m.size
                data := Function.update
                  (Function.update m.data sp (v % U16 / U8)) (sp + 1)
                  (v % U8) }
            registers :=
              { size := regs.size
                data := Function.update
                  (Function.update regs.data register.SP
                    (u16sub sp 2 % U16 / U8))
                  (register.SP + 1) (u16sub sp 2 % U8) }
            stack_frame_size := u16add sfs 2
            is_in_interrupt_handler := ih },
          { size := m.size
            data := Function.update
              (Function.update m.data sp (v % U16 / U8)) (sp + 1)
              (v % U8) },
          ?_, rfl, hmem, hsz, ?_, ?_, ?_, rfl⟩
  · have obind : ∀ {α β : Type} (a : α) (f : α → Option β),
        Option.bind (some a) f = f a := fun _ _ => rfl
    have hsp2 : regs.get_u16 register.SP = some sp := hsp
    show (Memory.get_u16 regs register.SP).bind _ = _
    rw [hsp2]
    simp only [obind]
    show ((m.set_u16 sp v).map Device.flat).bind _ = _
    rw [hmem]
    simp only [Option.map_some', obind]
    rw [CPU.set_register_flat rfl (u16sub sp 2) hrs]
    rfl
  · intro hwf
    exact hwf.set_u16 hrs
  · have harith : u16sub sp 2 % U16 = sp - 2 := by
      rw [hsub]
      exact Nat.mod_eq_of_lt (by omega)
    have hsame := Memory.get_u16_set_u16_same hrs
    rw [← harith]
    exact hsame
  · intro x hx1 hx2
    show Function.update (Function.update regs.data register.SP
        (u16sub sp 2 % U16 / U8)) (register.SP + 1) (u16sub sp 2 % U8) x =
      regs.data x
    rw [Function.update_noteq hx2, Function.update_noteq hx1]


theorem Memory.get_u16_congr {m1 m2 : Memory} {a : ℕ}
    (hsz : m1.size = m2.size) (h1 : m1.data a = m2.data a)
    (h2 : m1.data (a + 1) = m2.data (a + 1)) :
    m1.get_u16 a = m2.get_u16 a := by
  unfold Memory.get_u16 Memory.get_u8
  rw [hsz, h1, h2]

set_option maxRecDepth 2000 in
/-- Spec of a fold of `push_to_stack` over a list of values: the values
land at `sp, sp-2, …`, `SP` drops by `2·len`, `stack_frame_size` grows by
`2·len`, and registers (apart from `SP`) and memory outside the written
window are untouched. -/
theorem CPU.pushList_spec : ∀ (vs : List ℕ) (c : CPU) (m : Memory) (sp : ℕ),
    c.memory = Device.flat m →
    c.get_register register.SP = some sp →
    c.registers.size = register.SIZE →
    c.registers.WF →
    2 * vs.length ≤ sp →
    sp + 2 ≤ m.size →
    m.size ≤ U16 →
    c.stack_frame_size + 2 * vs.length < U16 →
    ∃ c' m', vs.foldlM (fun c v => c.push_to_stack v) c = some c' ∧
      c'.memory = Device.flat m' ∧
      m'.size = m.size ∧
      c'.registers.size = register.SIZE ∧
      c'.registers.WF ∧
      c'.get_register register.SP = some (sp - 2 * vs.length) ∧
      (∀ x, x ≠ register.SP → x ≠ register.SP + 1 →
        c'.registers.data x = c.registers.data x) ∧
      c'.stack_frame_size = c.stack_frame_size + 2 * vs.length ∧
      (∀ x, (x + 2 * vs.length < sp + 2 ∨ sp + 2 ≤ x) →
        m'.data x = m.data x) ∧
      (∀ i (h : i < vs.length),
        m'.get_u16 (sp - 2 * i) = some (vs.get ⟨i, h⟩ % U16)) := by
  intro vs
  induction vs with
  | nil =>
    intro c m sp hm hsp hsz hwf hroom hub hU hsfs
    refine ⟨c, m, rfl, hm, rfl, hsz, hwf, ?_, fun x h1 h2 => rfl, ?_,
      fun x hx => rfl, ?_⟩
    · simpa using hsp
    · simp
    · intro i h
      simp at h
  | cons v vs ihl =>
    intro c m sp hm hsp hsz hwf hroom hub hU hsfs
    simp only [List.length_cons] at hroom hsfs
    have hlb : 2 ≤ sp := by omega
    obtain ⟨c1, m1, hpush, hm1, hset1, hsz1, hwf1, hsp1, hdata1, hsfs1⟩ :=
      CPU.push_to_stack_spec v hm hsp hsz hlb hub hU
    have hm1sz : m1.size = m.size := Memory.size_set_u16 hset1
    have hsfs1' : c1.stack_frame_size = c.stack_frame_size + 2 := by
      rw [hsfs1]
      exact u16add_eq (by omega)
    obtain ⟨c', m', hfold, hm', hm'sz, hsz', hwf', hsp', hdata', hsfs',
        hout', hget'⟩ :=
      ihl c1 m1 (sp - 2) hm1 hsp1 hsz1 (hwf1 hwf) (by omega)
        (by omega) (by omega) (by omega)
    refine ⟨c', m', ?_, hm', by omega, hsz', hwf', ?_, ?_, ?_, ?_, ?_⟩
    · rw [List.foldlM_cons, hpush]
      simpa using hfold
    · rw [hsp']
      congr 1
      simp only [List.length_cons]
      omega
    · intro x h1 h2
      rw [hdata' x h1 h2, hdata1 x h1 h2]
    · rw [hsfs', hsfs1']
      simp only [List.length_cons]
      omega
    · intro x hx
      simp only [List.length_cons] at hx
      have hx' : x + 2 * vs.length < sp - 2 + 2 ∨ sp - 2 + 2 ≤ x := by
        omega
      rw [hout' x hx']
      have hxa : x ≠ sp := by omega
      have hxb : x ≠ sp + 1 := by omega
      exact Memory.data_set_u16_other hset1 hxa hxb
    · intro i h
      cases i with
      | zero =>
        have hsame := Memory.get_u16_set_u16_same hset1
        have hpres : m'.get_u16 sp = m1.get_u16 sp := by
          refine Memory.get_u16_congr (by omega) ?_ ?_
          · exact hout' sp (by omega)
          · exact hout' (sp + 1) (by omega)
        simp only [Nat.mul_zero, Nat.sub_zero]
        rw [hpres, hsame]
        rfl
      | succ j =>
        have hj : j < vs.length := by
          simp only [List.length_cons] at h
          omega
        have := hget' j hj
        have harr : sp - 2 - 2 * j = sp - 2 * (j + 1) := by omega
        rw [harr] at this
        rw [this]
        rfl

theorem CPU.get_register_congr {c c' : CPU} {r : ℕ}
    (hsz : c'.registers.size = c.registers.size)
    (h1 : c'.registers.data r = c.registers.data r)
    (h2 : c'.registers.data (r + 1) = c.registers.data (r + 1)) :
    c'.get_register r = c.get_register r :=
  Memory.get_u16_congr hsz h1 h2

theorem Forall2_get_register_transport {c c1 : CPU}
    (hszeq : c1.registers.size = c.registers.size)
    (hdata : ∀ x, x ≠ register.SP → x ≠ register.SP + 1 →
      c1.registers.data x = c.registers.data x) :
    ∀ {rs vs : List ℕ},
    (∀ r ∈ rs, r + 2 ≤ register.SP ∨ register.SP + 2 ≤ r) →
    List.Forall₂ (fun r v => c.get_register r = some v) rs vs →
    List.Forall₂ (fun r v => c1.get_register r = some v) rs vs := by
  intro rs vs hgood hall
  induction hall with
  | nil => exact .nil
  | @cons r v rs2 vs2 hrv hall2 ihl =>
    have hg := hgood r (List.mem_cons_self _ _)
    refine .cons ?_ (ihl (fun x hx => hgood x (List.mem_cons_of_mem _ hx)))
    rw [CPU.get_register_congr hszeq (hdata r (by omega) (by omega))
      (hdata (r + 1) (by omega) (by omega))]
    exact hrv

set_option maxRecDepth 2000 in
/-- Folding "read a register then push it" over a list of register
offsets not aliasing `SP` equals folding `push_to_stack` over the
registers' initial values. -/
theorem CPU.fold_read_push_eq :
    ∀ {rs vs : List ℕ} (c : CPU) (m : Memory) (sp : ℕ),
    List.Forall₂ (fun r v => c.get_register r = some v) rs vs →
    (∀ r ∈ rs, r + 2 ≤ register.SP ∨ register.SP + 2 ≤ r) →
    c.memory = Device.flat m →
    c.get_register register.SP = some sp →
    c.registers.size = register.SIZE →
    2 * rs.length ≤ sp →
    sp + 2 ≤ m.size →
    m.size ≤ U16 →
    rs.foldlM (fun c r => do
        let v ← c.get_register r
        c.push_to_stack v) c =
      vs.foldlM (fun c v => c.push_to_stack v) c := by
  intro rs
  induction rs with
  | nil =>
    intro vs c m sp hall _ _ _ _ _ _ _
    cases hall
    rfl
  | cons r rs2 ihl =>
    intro vs c m sp hall hrs hm hsp hsz hroom hub hU
    obtain ⟨v, vs2, hrv, hall2, rfl⟩ :
        ∃ v vs2, c.get_register r = some v ∧
          List.Forall₂ (fun r v => c.get_register r = some v) rs2 vs2 ∧
          vs = v :: vs2 := by
      cases hall with
      | cons h1 h2 => exact ⟨_, _, h1, h2, rfl⟩
    simp only [List.length_cons] at hroom
    obtain ⟨c1, m1, hpush, hm1, hset1, hsz1, hwf1, hsp1, hdata1, hsfs1⟩ :=
      CPU.push_to_stack_spec v hm hsp hsz (by omega) hub hU
    have hm1sz : m1.size = m.size := Memory.size_set_u16 hset1
    rw [List.foldlM_cons, List.foldlM_cons]
    have hhead : (do
        let v ← c.get_register r
        c.push_to_stack v) = some c1 := by
      rw [hrv]
      show c.push_to_stack v = some c1
      exact hpush
    rw [hhead, hpush]
    have hszeq : c1.registers.size = c.registers.size := by
      rw [hsz1, hsz]
    have hall2' := Forall2_get_register_transport hszeq hdata1
      (fun x hx => hrs x (List.mem_cons_of_mem _ hx)) hall2
    have htail := ihl c1 m1 (sp - 2) hall2'
      (fun x hx => hrs x (List.mem_cons_of_mem _ hx)) hm1 hsp1 hsz1
      (by omega) (by omega) (by omega)
    simpa using htail

set_option maxRecDepth 4000 in
/-- Forward-execution spec of `push_state` on a flat memory: R1..R8, IP
and `stack_frame_size + 20` are laid out from `sp` down to `sp - 18`,
`SP = FP = sp - 20`, `stack_frame_size` is reset to 0, and the other
registers and the rest of memory are untouched. -/
theorem CPU.push_state_spec {c : CPU} {m : Memory}
    {sp sfs r1 r2 r3 r4 r5 r6 r7 r8 ip : ℕ}
    (hm : c.memory = Device.flat m)
    (hsp : c.get_register register.SP = some sp)
    (hsz : c.registers.size = register.SIZE)
    (hwf : c.registers.WF)
    (hsfs : c.stack_frame_size = sfs)
    (hR1 : c.get_register register.R1 = some r1)
    (hR2 : c.get_register register.R2 = some r2)
    (hR3 : c.get_register register.R3 = some r3)
    (hR4 : c.get_register register.R4 = some r4)
    (hR5 : c.get_register register.R5 = some r5)
    (hR6 : c.get_register register.R6 = some r6)
    (hR7 : c.get_register register.R7 = some r7)
    (hR8 : c.get_register register.R8 = some r8)
    (hIP : c.get_register register.IP = some ip)
    (hroom : 20 ≤ sp) (hub : sp + 2 ≤ m.size) (hU : m.size ≤ U16)
    (hsfsU : sfs + 20 < U16) :
    ∃ c' m', c.push_state = some c' ∧
      c'.memory = Device.flat m' ∧
      m'.size = m.size ∧
      c'.registers.size = register.SIZE ∧
      c'.registers.WF ∧
      c'.get_register register.SP = some (sp - 20) ∧
      c'.get_register register.FP = some (sp - 20) ∧
      c'.stack_frame_size = 0 ∧
      (∀ x, x ≠ register.SP → x ≠ register.SP + 1 →
        x ≠ register.FP → x ≠ register.FP + 1 →
        c'.registers.data x = c.registers.data x) ∧
      (∀ x, (x + 20 < sp + 2 ∨ sp + 2 ≤ x) → m'.data x = m.data x) ∧
      m'.get_u16 (sp - 18) = some (sfs + 20) ∧
      m'.get_u16 (sp - 16) = some ip ∧
      m'.get_u16 (sp - 14) = some r8 ∧
      m'.get_u16 (sp - 12) = some r7 ∧
      m'.get_u16 (sp - 10) = some r6 ∧
      m'.get_u16 (sp - 8) = some r5 ∧
      m'.get_u16 (sp - 6) = some r4 ∧
      m'.get_u16 (sp - 4) = some r3 ∧
      m'.get_u16 (sp - 2) = some r2 ∧
      m'.get_u16 sp = some r1 := by
  have hr1U := hwf.get_u16_lt hR1
  have hr2U := hwf.get_u16_lt hR2
  have hr3U := hwf.get_u16_lt hR3
  have hr4U := hwf.get_u16_lt hR4
  have hr5U := hwf.get_u16_lt hR5
  have hr6U := hwf.get_u16_lt hR6
  have hr7U := hwf.get_u16_lt hR7
  have hr8U := hwf.get_u16_lt hR8
  have hipU := hwf.get_u16_lt hIP
  have hall : List.Forall₂ (fun r v => c.get_register r = some v)
      register.GENERAL_PURPOSE_LIST [r1, r2, r3, r4, r5, r6, r7, r8] :=
    .cons hR1 (.cons hR2 (.cons hR3 (.cons hR4 (.cons hR5 (.cons hR6
      (.cons hR7 (.cons hR8 .nil)))))))
  have hgood : ∀ r ∈ register.GENERAL_PURPOSE_LIST,
      r + 2 ≤ register.SP ∨ register.SP + 2 ≤ r := by decide
  have hlen : 2 * register.GENERAL_PURPOSE_LIST.length ≤ sp := by
    simp only [register.GENERAL_PURPOSE_LIST, List.length_cons,
      List.length_nil]
    omega
  have hfoldeq := CPU.fold_read_push_eq c m sp hall hgood hm hsp hsz
    hlen hub hU
  obtain ⟨c8, m8, hfold8, hm8, hm8sz, hsz8, hwf8, hsp8, hdata8, hsfs8,
      hout8, hget8⟩ :=
    CPU.pushList_spec [r1, r2, r3, r4, r5, r6, r7, r8] c m sp hm hsp hsz
      hwf (by simp only [List.length_cons, List.length_nil]; omega) hub hU
      (by simp only [List.length_cons, List.length_nil]; omega)
  simp only [List.length_cons, List.length_nil] at hsp8 hsfs8 hout8
  have hsfs8' : c8.stack_frame_size = sfs + 16 := by
    rw [hsfs8, hsfs]
  have hip8 : c8.get_register register.IP = some ip := by
    rw [CPU.get_register_congr (by rw [hsz8, hsz])
      (hdata8 register.IP (by decide) (by decide))
      (hdata8 (register.IP + 1) (by decide) (by decide))]
    exact hIP
  obtain ⟨c9, m9, hpush9, hm9, hset9, hsz9, hwf9, hsp9, hdata9, hsfs9⟩ :=
    CPU.push_to_stack_spec ip hm8 hsp8 hsz8 (by omega) (by omega) (by omega)
  have hm9sz : m9.size = m8.size := Memory.size_set_u16 hset9
  have hsfs9' : c9.stack_frame_size = sfs + 18 := by
    rw [hsfs9, hsfs8']
    exact u16add_eq (by omega)
  obtain ⟨c10, m10, hpush10, hm10, hset10, hsz10, hwf10, hsp10, hdata10,
      hsfs10⟩ :=
    CPU.push_to_stack_spec (u16add c9.stack_frame_size 2) hm9 hsp9 hsz9
      (by omega) (by omega) (by omega)
  have hm10sz : m10.size = m9.size := Memory.size_set_u16 hset10
  have hval10 : u16add c9.stack_frame_size 2 = sfs + 20 := by
    rw [hsfs9']
    exact u16add_eq (by omega)
  have hsfs10' : c10.stack_frame_size = sfs + 20 := by
    rw [hsfs10, hsfs9']
    exact u16add_eq (by omega)
  have hspval : sp - 16 - 2 = sp - 18 := by omega
  have hspval2 : sp - 18 - 2 = sp - 20 := by omega
  rw [hspval] at hsp10 hset10
  rw [hspval2] at hsp10
  have hfp21 : register.FP + 1 < c10.registers.size := by
    rw [hsz10]
    decide
  have hrs := Memory.set_u16_some c10.registers register.FP (sp - 20) hfp21
  have hsetfp := CPU.set_register_flat hm10 (sp - 20) hrs
  refine ⟨{ memory := Device.flat m10
            registers :=
              { size := c10.registers.size
                data := Function.update (Function.update c10.registers.data
                  register.FP ((sp - 20) % U16 / U8)) (register.FP + 1)
                  ((sp - 20) % U8) }
            stack_frame_size := 0
            is_in_interrupt_handler := c10.is_in_interrupt_handler },
          m10, ?_, rfl, by omega, ?_, ?_, ?_, ?_, rfl, ?_, ?_, ?_, ?_, ?_,
          ?_, ?_, ?_, ?_, ?_, ?_, ?_⟩
  · rw [CPU.push_state]
    have obind : ∀ {α β : Type} (a : α) (f : α → Option β),
        Option.bind (some a) f = f a := fun _ _ => rfl
    rw [hfoldeq, hfold8]
    have obind2 : ∀ {α β : Type} (a : α) (f : α → Option β),
        ((some a : Option α) >>= f) = f a := fun _ _ => rfl
    simp only [obind2]
    show (c8.get_register register.IP).bind _ = _
    rw [hip8]
    simp only [obind]
    show (c8.push_to_stack ip).bind _ = _
    rw [hpush9]
    simp only [obind]
    show (c9.push_to_stack (u16add c9.stack_frame_size 2)).bind _ = _
    rw [hpush10]
    simp only [obind]
    show (c10.get_register register.SP).bind _ = _
    rw [hsp10]
    simp only [obind]
    show (c10.set_register register.FP (sp - 20)).bind _ = _
    rw [hsetfp]
    rw [hm10]
    rfl
  · exact hsz10
  · exact (hwf10 (hwf9 hwf8)).set_u16 hrs
  · show Memory.get_u16
      { size := c10.registers.size
        data := Function.update (Function.update c10.registers.data
          register.FP ((sp - 20) % U16 / U8)) (register.FP + 1)
          ((sp - 20) % U8) } register.SP = some (sp - 20)
    refine Eq.trans (@Memory.get_u16_congr _ c10.registers _ rfl ?_ ?_)
      hsp10
    · show Function.update (Function.update c10.registers.data
        register.FP ((sp - 20) % U16 / U8)) (register.FP + 1)
        ((sp - 20) % U8) register.SP = c10.registers.data register.SP
      rw [Function.update_noteq (by decide),
        Function.update_noteq (by decide)]
    · show Function.update (Function.update c10.registers.data
        register.FP ((sp - 20) % U16 / U8)) (register.FP + 1)
        ((sp - 20) % U8) (register.SP + 1) =
        c10.registers.data (register.SP + 1)
      rw [Function.update_noteq (by decide),
        Function.update_noteq (by decide)]
  · have harith : (sp - 20) % U16 = sp - 20 :=
      Nat.mod_eq_of_lt (by omega)
    have hsame := Memory.get_u16_set_u16_same hrs
    show Memory.get_u16
      { size := c10.registers.size
        data := Function.update (Function.update c10.registers.data
          register.FP ((sp - 20) % U16 / U8)) (register.FP + 1)
          ((sp - 20) % U8) } register.FP = some (sp - 20)
    conv_rhs => rw [← harith]
    exact hsame
  · intro x h1 h2 h3 h4
    show Function.update (Function.update c10.registers.data
        register.FP ((sp - 20) % U16 / U8)) (register.FP + 1)
        ((sp - 20) % U8) x = c.registers.data x
    rw [Function.update_noteq h4, Function.update_noteq h3,
      hdata10 x h1 h2, hdata9 x h1 h2, hdata8 x h1 h2]
  · intro x hx
    rw [Memory.data_set_u16_other hset10 (by omega) (by omega),
      Memory.data_set_u16_other hset9 (by omega) (by omega),
      hout8 x (by omega)]
  · have h := Memory.get_u16_set_u16_same hset10
    rw [hval10] at h
    rw [h, Nat.mod_eq_of_lt (by omega : sfs + 20 < U16)]
  · rw [Memory.get_u16_set_u16_disjoint hset10 (by omega)]
    have h := Memory.get_u16_set_u16_same hset9
    rw [h, Nat.mod_eq_of_lt hipU]
  · rw [Memory.get_u16_set_u16_disjoint hset10 (by omega),
      Memory.get_u16_set_u16_disjoint hset9 (by omega)]
    have h := hget8 7 (by simp)
    norm_num at h
    rw [show sp - 14 = sp - 2 * 7 by omega, h,
      Nat.mod_eq_of_lt hr8U]
  · rw [Memory.get_u16_set_u16_disjoint hset10 (by omega),
      Memory.get_u16_set_u16_disjoint hset9 (by omega)]
    have h := hget8 6 (by simp)
    norm_num at h
    rw [show sp - 12 = sp - 2 * 6 by omega, h,
      Nat.mod_eq_of_lt hr7U]
  · rw [Memory.get_u16_set_u16_disjoint hset10 (by omega),
      Memory.get_u16_set_u16_disjoint hset9 (by omega)]
    have h := hget8 5 (by simp)
    norm_num at h
    rw [show sp - 10 = sp - 2 * 5 by omega, h,
      Nat.mod_eq_of_lt hr6U]
  · rw [Memory.get_u16_set_u16_disjoint hset10 (by omega),
      Memory.get_u16_set_u16_disjoint hset9 (by omega)]
    have h := hget8 4 (by simp)
    norm_num at h
    rw [show sp - 8 = sp - 2 * 4 by omega, h,
      Nat.mod_eq_of_lt hr5U]
  · rw [Memory.get_u16_set_u16_disjoint hset10 (by omega),
      Memory.get_u16_set_u16_disjoint hset9 (by omega)]
    have h := hget8 3 (by simp)
    norm_num at h
    rw [show sp - 6 = sp - 2 * 3 by omega, h,
      Nat.mod_eq_of_lt hr4U]
  · rw [Memory.get_u16_set_u16_disjoint hset10 (by omega),
      Memory.get_u16_set_u16_disjoint hset9 (by omega)]
    have h := hget8 2 (by simp)
    norm_num at h
    rw [show sp - 4 = sp - 2 * 2 by omega, h,
      Nat.mod_eq_of_lt hr3U]
  · rw [Memory.get_u16_set_u16_disjoint hset10 (by omega),
      Memory.get_u16_set_u16_disjoint hset9 (by omega)]
    have h := hget8 1 (by simp)
    norm_num at h
    rw [show sp - 2 = sp - 2 * 1 by omega, h,
      Nat.mod_eq_of_lt hr2U]
  · rw [Memory.get_u16_set_u16_disjoint hset10 (by omega),
      Memory.get_u16_set_u16_disjoint hset9 (by omega)]
    have h := hget8 0 (by simp)
    norm_num at h
    rw [h, Nat.mod_eq_of_lt hr1U]



set_option maxRecDepth 4000 in
theorem CPU.pop_from_stack_spec {c : CPU} {m : Memory} {sp v : ℕ}
    (hm : c.memory = Device.flat m)
    (hsp : c.get_register register.SP = some sp)
    (hsz : c.registers.size = register.SIZE)
    (hspU : sp + 2 < U16)
    (hv : m.get_u16 (sp + 2) = some v) :
    ∃ c', c.pop_from_stack = some (v, c') ∧
      c'.memory = Device.flat m ∧
      c'.registers.size = register.SIZE ∧
      (c.registers.WF → c'.registers.WF) ∧
      c'.get_register register.SP = some (sp + 2) ∧
      (∀ x, x ≠ register.SP → x ≠ register.SP + 1 →
        c'.registers.data x = c.registers.data x) ∧
      c'.stack_frame_size = u16sub c.stack_frame_size 2 := by
  have hadd : u16add sp 2 = sp + 2 := u16add_eq hspU
  have hreg21 : register.SP + 1 < c.registers.size := by
    rw [hsz]
    decide
  have hrs := Memory.set_u16_some c.registers register.SP (u16add sp 2)
    hreg21
  have hsetsp := CPU.set_register_flat hm (u16add sp 2) hrs
  obtain ⟨mem, regs, sfs, ih⟩ := c
  simp only at hm hsp hsz hrs hreg21 hsetsp
  subst hm
  refine ⟨{ memory := Device.flat m
            registers :=
              { size := regs.size
                data := Function.update (Function.update regs.data
                  register.SP (u16add sp 2 % U16 / U8))
                  (register.SP + 1) (u16add sp 2 % U8) }
            stack_frame_size := u16sub sfs 2
            is_in_interrupt_handler := ih },
          ?_, rfl, hsz, ?_, ?_, ?_, rfl⟩
  · have obind : ∀ {α β : Type} (a : α) (f : α → Option β),
        Option.bind (some a) f = f a := fun _ _ => rfl
    rw [CPU.pop_from_stack]
    have hsp2 : regs.get_u16 register.SP = some sp := hsp
    show (Memory.get_u16 regs register.SP).bind _ = _
    rw [hsp2]
    simp only [obind]
    rw [hsetsp]
    show (Memory.get_u16 m (u16add sp 2)).bind _ = _
    rw [hadd, hv]
    rfl
  · intro hwf
    exact hwf.set_u16 hrs
  · have harith : u16add sp 2 % U16 = sp + 2 := by
      rw [hadd]
      exact Nat.mod_eq_of_lt hspU
    have hsame := Memory.get_u16_set_u16_same hrs
    show Memory.get_u16
      { size := regs.size
        data := Function.update (Function.update regs.data
          register.SP (u16add sp 2 % U16 / U8))
          (register.SP + 1) (u16add sp 2 % U8) } register.SP =
      some (sp + 2)
    conv_rhs => rw [← harith]
    exact hsame
  · intro x hx1 hx2
    show Function.update (Function.update regs.data
        register.SP (u16add sp 2 % U16 / U8))
        (register.SP + 1) (u16add sp 2 % U8) x = regs.data x
    rw [Function.update_noteq hx2, Function.update_noteq hx1]

set_option maxRecDepth 4000 in
theorem CPU.pop_set_step {c : CPU} {m : Memory} {sp w : ℕ} (r : ℕ)
    (hm : c.memory = Device.flat m)
    (hsp : c.get_register register.SP = some sp)
    (hsz : c.registers.size = register.SIZE)
    (hgood : r + 2 ≤ register.SP ∨ register.SP + 2 ≤ r)
    (hr28 : r + 1 < register.SIZE)
    (hspU : sp + 2 < U16)
    (hv : m.get_u16 (sp + 2) = some w) (hwU : w < U16) :
    ∃ c', (do
        let x ← c.pop_from_stack
        x.2.set_register r x.1) = some c' ∧
      c'.memory = Device.flat m ∧
      c'.registers.size = register.SIZE ∧
      (c.registers.WF → c'.registers.WF) ∧
      c'.get_register register.SP = some (sp + 2) ∧
      c'.get_register r = some w ∧
      (∀ x, x ≠ register.SP → x ≠ register.SP + 1 → x ≠ r → x ≠ r + 1 →
        c'.registers.data x = c.registers.data x) ∧
      c'.stack_frame_size = u16sub c.stack_frame_size 2 := by
  obtain ⟨c1, hpop, hm1, hsz1, hwf1, hsp1, hdata1, hsfs1⟩ :=
    CPU.pop_from_stack_spec hm hsp hsz hspU hv
  have hr28' : r + 1 < c1.registers.size := by
    rw [hsz1]
    exact hr28
  have hrs := Memory.set_u16_some c1.registers r w hr28'
  have hset := CPU.set_register_flat hm1 w hrs
  refine ⟨{ memory := Device.flat m
            registers :=
              { size := c1.registers.size
                data := Function.update (Function.update c1.registers.data
                  r (w % U16 / U8)) (r + 1) (w % U8) }
            stack_frame_size := c1.stack_frame_size
            is_in_interrupt_handler := c1.is_in_interrupt_handler },
          ?_, rfl, ?_, ?_, ?_, ?_, ?_, hsfs1⟩
  · rw [hpop]
    show c1.set_register r w = _
    rw [hset]
    have hm1' := hm1
    cases hc1 : c1.memory
    · rw [hc1] at hm1'
      cases hm1'
      rfl
    · rw [hc1] at hm1'
      cases hm1'
    · rw [hc1] at hm1'
      cases hm1'
  · exact hsz1
  · intro hwf
    exact ((hwf1 hwf).set_u16 hrs)
  · show Memory.get_u16
      { size := c1.registers.size
        data := Function.update (Function.update c1.registers.data
          r (w % U16 / U8)) (r + 1) (w % U8) } register.SP =
      some (sp + 2)
    refine Eq.trans (@Memory.get_u16_congr _ c1.registers _ rfl ?_ ?_)
      hsp1
    · show Function.update (Function.update c1.registers.data
        r (w % U16 / U8)) (r + 1) (w % U8) register.SP =
        c1.registers.data register.SP
      rw [Function.update_noteq (by omega), Function.update_noteq (by omega)]
    · show Function.update (Function.update c1.registers.data
        r (w % U16 / U8)) (r + 1) (w % U8) (register.SP + 1) =
        c1.registers.data (register.SP + 1)
      rw [Function.update_noteq (by omega), Function.update_noteq (by omega)]
  · have harith : w % U16 = w := Nat.mod_eq_of_lt hwU
    have hsame := Memory.get_u16_set_u16_same hrs
    show Memory.get_u16
      { size := c1.registers.size
        data := Function.update (Function.update c1.registers.data
          r (w % U16 / U8)) (r + 1) (w % U8) } r = some w
    conv_rhs => rw [← harith]
    exact hsame
  · intro x hx1 hx2 hx3 hx4
    show Function.update (Function.update c1.registers.data
        r (w % U16 / U8)) (r + 1) (w % U8) x = c.registers.data x
    rw [Function.update_noteq hx4, Function.update_noteq hx3,
      hdata1 x hx1 hx2]


theorem CPU.get_register_step {c c' : CPU} {r v : ℕ}
    (hsz : c'.registers.size = c.registers.size)
    (h1 : c'.registers.data r = c.registers.data r)
    (h2 : c'.registers.data (r + 1) = c.registers.data (r + 1))
    (hv : c.get_register r = some v) : c'.get_register r = some v :=
  (Memory.get_u16_congr hsz h1 h2).trans hv

set_option maxRecDepth 4000 in
theorem CPU.set_register_spec {c : CPU} {m : Memory} (r v : ℕ)
    (hm : c.memory = Device.flat m)
    (hsz : c.registers.size = register.SIZE)
    (hr : r + 1 < register.SIZE)
    (hvU : v < U16) :
    ∃ c', c.set_register r v = some c' ∧
      c'.memory = Device.flat m ∧
      c'.registers.size = register.SIZE ∧
      (c.registers.WF → c'.registers.WF) ∧
      c'.get_register r = some v ∧
      (∀ x, x ≠ r → x ≠ r + 1 → c'.registers.data x = c.registers.data x) ∧
      c'.stack_frame_size = c.stack_frame_size := by
  have hr' : r + 1 < c.registers.size := by
    rw [hsz]
    exact hr
  have hrs := Memory.set_u16_some c.registers r v hr'
  have hset := CPU.set_register_flat hm v hrs
  obtain ⟨mem, regs, sfs, ih⟩ := c
  simp only at hm hrs hr' hset
  subst hm
  refine ⟨{ memory := Device.flat m
            registers :=
              { size := regs.size
                data := Function.update (Function.update regs.data
                  r (v % U16 / U8)) (r + 1) (v % U8) }
            stack_frame_size := sfs
            is_in_interrupt_handler := ih },
          ?_, rfl, hsz, ?_, ?_, ?_, rfl⟩
  · exact hset
  · intro hwf
    exact hwf.set_u16 hrs
  · have harith : v % U16 = v := Nat.mod_eq_of_lt hvU
    have hsame := Memory.get_u16_set_u16_same hrs
    show Memory.get_u16
      { size := regs.size
        data := Function.update (Function.update regs.data
          r (v % U16 / U8)) (r + 1) (v % U8) } r = some v
    conv_rhs => rw [← harith]
    exact hsame
  · intro x hx1 hx2
    show Function.update (Function.update regs.data
        r (v % U16 / U8)) (r + 1) (v % U8) x = regs.data x
    rw [Function.update_noteq hx2, Function.update_noteq hx1]


set_option maxRecDepth 8000 in
/-- Forward-execution spec of `pop_state` on a flat memory holding a
frame at `fp + 2 .. fp + 21`: `SP` ends at `fp + 20`, `FP` at `fp + sz`,
`IP` and `R1..R8` are reloaded from the frame, `stack_frame_size` ends
at `sz - 18`, and the memory is untouched. -/
theorem CPU.pop_state_spec {c : CPU} {m : Memory}
    {fp sz ipv w1 w2 w3 w4 w5 w6 w7 w8 : ℕ}
    (hm : c.memory = Device.flat m)
    (hfp : c.get_register register.FP = some fp)
    (hsz : c.registers.size = register.SIZE)
    (hfpU : fp + 20 < U16)
    (hszlb : 18 ≤ sz) (hszU : sz < U16) (hfpsz : fp + sz < U16)
    (hv0 : m.get_u16 (fp + 2) = some sz)
    (hv1 : m.get_u16 (fp + 4) = some ipv) (hipvU : ipv < U16)
    (hv2 : m.get_u16 (fp + 6) = some w8) (hw8U : w8 < U16)
    (hv3 : m.get_u16 (fp + 8) = some w7) (hw7U : w7 < U16)
    (hv4 : m.get_u16 (fp + 10) = some w6) (hw6U : w6 < U16)
    (hv5 : m.get_u16 (fp + 12) = some w5) (hw5U : w5 < U16)
    (hv6 : m.get_u16 (fp + 14) = some w4) (hw4U : w4 < U16)
    (hv7 : m.get_u16 (fp + 16) = some w3) (hw3U : w3 < U16)
    (hv8 : m.get_u16 (fp + 18) = some w2) (hw2U : w2 < U16)
    (hv9 : m.get_u16 (fp + 20) = some w1) (hw1U : w1 < U16) :
    ∃ c', c.pop_state = some c' ∧
      c'.memory = Device.flat m ∧
      c'.registers.size = register.SIZE ∧
      (c.registers.WF → c'.registers.WF) ∧
      c'.get_register register.SP = some (fp + 20) ∧
      c'.get_register register.FP = some (fp + sz) ∧
      c'.get_register register.IP = some ipv ∧
      c'.get_register register.R1 = some w1 ∧
      c'.get_register register.R2 = some w2 ∧
      c'.get_register register.R3 = some w3 ∧
      c'.get_register register.R4 = some w4 ∧
      c'.get_register register.R5 = some w5 ∧
      c'.get_register register.R6 = some w6 ∧
      c'.get_register register.R7 = some w7 ∧
      c'.get_register register.R8 = some w8 ∧
      c'.stack_frame_size = sz - 18 := by
  have hfpU16 : fp < U16 := by omega
  obtain ⟨c1, hset1, hm1, hsz1, hwf1, hSP1, hdata1, hsfs1⟩ :=
    CPU.set_register_spec register.SP fp hm hsz (by decide) hfpU16
  obtain ⟨c3, hpop3, hm3, hsz3, hwf3, hSP3, hdata3, hsfs3⟩ :=
    CPU.pop_from_stack_spec (c := { c1 with stack_frame_size := 2 })
      hm1 hSP1 hsz1 (by omega) hv0
  have hv1a : m.get_u16 (fp + 2 + 2) = some ipv := by
    rw [show fp + 2 + 2 = fp + 4 by omega]
    exact hv1
  obtain ⟨c5, hpop5, hm5, hsz5, hwf5, hSP5, hdata5, hsfs5⟩ :=
    CPU.pop_from_stack_spec (c := { c3 with stack_frame_size := sz })
      hm3 hSP3 hsz3 (by omega) hv1a
  have hSP5a : c5.get_register register.SP = some (fp + 4) := by
    rw [hSP5]
  have hs5 : c5.stack_frame_size = sz - 2 := by
    rw [hsfs5]
    show u16sub sz 2 = sz - 2
    exact u16sub_eq (by omega) (by omega)
  obtain ⟨c6, hset6, hm6, hsz6, hwf6, hIP6, hdata6, hsfs6⟩ :=
    CPU.set_register_spec register.IP ipv hm5 hsz5 (by decide) hipvU
  have hs6 : c6.stack_frame_size = sz - 2 := by
    rw [hsfs6]
    exact hs5
  have hSP6 : c6.get_register register.SP = some (fp + 4) :=
    CPU.get_register_step (by rw [hsz6, hsz5])
      (hdata6 _ (by decide) (by decide))
      (hdata6 _ (by decide) (by decide)) hSP5a
  have hv7a : m.get_u16 (fp + 4 + 2) = some w8 := by
    rw [show fp + 4 + 2 = fp + 6 by omega]
    exact hv2
  obtain ⟨c7, hstep7, hm7, hsz7, hwf7, hSP7, hreg7, hdata7, hsfs7⟩ :=
    CPU.pop_set_step register.R8 hm6 hSP6 hsz6
      (by decide) (by decide) (by omega) hv7a hw8U
  have hSP7x : c7.get_register register.SP = some (fp + 6) := by
    rw [hSP7]
  have hs7 : c7.stack_frame_size = sz - 4 := by
    rw [hsfs7, hs6]
    exact u16sub_eq (by omega) (by omega)
  clear hSP7
  have hSP7 := hSP7x
  have hv8a : m.get_u16 (fp + 6 + 2) = some w7 := by
    rw [show fp + 6 + 2 = fp + 8 by omega]
    exact hv3
  obtain ⟨c8, hstep8, hm8, hsz8, hwf8, hSP8, hreg8, hdata8, hsfs8⟩ :=
    CPU.pop_set_step register.R7 hm7 hSP7 hsz7
      (by decide) (by decide) (by omega) hv8a hw7U
  have hSP8x : c8.get_register register.SP = some (fp + 8) := by
    rw [hSP8]
  have hs8 : c8.stack_frame_size = sz - 6 := by
    rw [hsfs8, hs7]
    exact u16sub_eq (by omega) (by omega)
  clear hSP8
  have hSP8 := hSP8x
  have hv9a : m.get_u16 (fp + 8 + 2) = some w6 := by
    rw [show fp + 8 + 2 = fp + 10 by omega]
    exact hv4
  obtain ⟨c9, hstep9, hm9, hsz9, hwf9, hSP9, hreg9, hdata9, hsfs9⟩ :=
    CPU.pop_set_step register.R6 hm8 hSP8 hsz8
      (by decide) (by decide) (by omega) hv9a hw6U
  have hSP9x : c9.get_register register.SP = some (fp + 10) := by
    rw [hSP9]
  have hs9 : c9.stack_frame_size = sz - 8 := by
    rw [hsfs9, hs8]
    exact u16sub_eq (by omega) (by omega)
  clear hSP9
  have hSP9 := hSP9x
  have hv10a : m.get_u16 (fp + 10 + 2) = some w5 := by
    rw [show fp + 10 + 2 = fp + 12 by omega]
    exact hv5
  obtain ⟨c10, hstep10, hm10, hsz10, hwf10, hSP10, hreg10, hdata10, hsfs10⟩ :=
    CPU.pop_set_step register.R5 hm9 hSP9 hsz9
      (by decide) (by decide) (by omega) hv10a hw5U
  have hSP10x : c10.get_register register.SP = some (fp + 12) := by
    rw [hSP10]
  have hs10 : c10.stack_frame_size = sz - 10 := by
    rw [hsfs10, hs9]
    exact u16sub_eq (by omega) (by omega)
  clear hSP10
  have hSP10 := hSP10x
  have hv11a : m.get_u16 (fp + 12 + 2) = some w4 := by
    rw [show fp + 12 + 2 = fp + 14 by omega]
    exact hv6
  obtain ⟨c11, hstep11, hm11, hsz11, hwf11, hSP11, hreg11, hdata11, hsfs11⟩ :=
    CPU.pop_set_step register.R4 hm10 hSP10 hsz10
      (by decide) (by decide) (by omega) hv11a hw4U
  have hSP11x : c11.get_register register.SP = some (fp + 14) := by
    rw [hSP11]
  have hs11 : c11.stack_frame_size = sz - 12 := by
    rw [hsfs11, hs10]
    exact u16sub_eq (by omega) (by omega)
  clear hSP11
  have hSP11 := hSP11x
  have hv12a : m.get_u16 (fp + 14 + 2) = some w3 := by
    rw [show fp + 14 + 2 = fp + 16 by omega]
    exact hv7
  obtain ⟨c12, hstep12, hm12, hsz12, hwf12, hSP12, hreg12, hdata12, hsfs12⟩ :=
    CPU.pop_set_step register.R3 hm11 hSP11 hsz11
      (by decide) (by decide) (by omega) hv12a hw3U
  have hSP12x : c12.get_register register.SP = some (fp + 16) := by
    rw [hSP12]
  have hs12 : c12.stack_frame_size = sz - 14 := by
    rw [hsfs12, hs11]
    exact u16sub_eq (by omega) (by omega)
  clear hSP12
  have hSP12 := hSP12x
  have hv13a : m.get_u16 (fp + 16 + 2) = some w2 := by
    rw [show fp + 16 + 2 = fp + 18 by omega]
    exact hv8
  obtain ⟨c13, hstep13, hm13, hsz13, hwf13, hSP13, hreg13, hdata13, hsfs13⟩ :=
    CPU.pop_set_step register.R2 hm12 hSP12 hsz12
      (by decide) (by decide) (by omega) hv13a hw2U
  have hSP13x : c13.get_register register.SP = some (fp + 18) := by
    rw [hSP13]
  have hs13 : c13.stack_frame_size = sz - 16 := by
    rw [hsfs13, hs12]
    exact u16sub_eq (by omega) (by omega)
  clear hSP13
  have hSP13 := hSP13x
  have hv14a : m.get_u16 (fp + 18 + 2) = some w1 := by
    rw [show fp + 18 + 2 = fp + 20 by omega]
    exact hv9
  obtain ⟨c14, hstep14, hm14, hsz14, hwf14, hSP14, hreg14, hdata14, hsfs14⟩ :=
    CPU.pop_set_step register.R1 hm13 hSP13 hsz13
      (by decide) (by decide) (by omega) hv14a hw1U
  have hSP14x : c14.get_register register.SP = some (fp + 20) := by
    rw [hSP14]
  have hs14 : c14.stack_frame_size = sz - 18 := by
    rw [hsfs14, hs13]
    exact u16sub_eq (by omega) (by omega)
  clear hSP14
  have hSP14 := hSP14x
  have hfpszU : u16add fp sz < U16 := by
    rw [u16add_eq hfpsz]
    exact hfpsz
  obtain ⟨c15, hset15, hm15, hsz15, hwf15, hFP15, hdata15, hsfs15⟩ :=
    CPU.set_register_spec register.FP (u16add fp sz) hm14 hsz14
      (by decide) hfpszU
  have hIPf_7 : c7.get_register register.IP = some ipv :=
    CPU.get_register_step (by rw [hsz7, hsz6])
      (hdata7 _ (by decide) (by decide) (by decide) (by decide))
      (hdata7 _ (by decide) (by decide) (by decide) (by decide)) hIP6
  have hIPf_8 : c8.get_register register.IP = some ipv :=
    CPU.get_register_step (by rw [hsz8, hsz7])
      (hdata8 _ (by decide) (by decide) (by decide) (by decide))
      (hdata8 _ (by decide) (by decide) (by decide) (by decide)) hIPf_7
  have hIPf_9 : c9.get_register register.IP = some ipv :=
    CPU.get_register_step (by rw [hsz9, hsz8])
      (hdata9 _ (by decide) (by decide) (by decide) (by decide))
      (hdata9 _ (by decide) (by decide) (by decide) (by decide)) hIPf_8
  have hIPf_10 : c10.get_register register.IP = some ipv :=
    CPU.get_register_step (by rw [hsz10, hsz9])
      (hdata10 _ (by decide) (by decide) (by decide) (by decide))
      (hdata10 _ (by decide) (by decide) (by decide) (by decide)) hIPf_9
  have hIPf_11 : c11.get_register register.IP = some ipv :=
    CPU.get_register_step (by rw [hsz11, hsz10])
      (hdata11 _ (by decide) (by decide) (by decide) (by decide))
      (hdata11 _ (by decide) (by decide) (by decide) (by decide)) hIPf_10
  have hIPf_12 : c12.get_register register.IP = some ipv :=
    CPU.get_register_step (by rw [hsz12, hsz11])
      (hdata12 _ (by decide) (by decide) (by decide) (by decide))
      (hdata12 _ (by decide) (by decide) (by decide) (by decide)) hIPf_11
  have hIPf_13 : c13.get_register register.IP = some ipv :=
    CPU.get_register_step (by rw [hsz13, hsz12])
      (hdata13 _ (by decide) (by decide) (by decide) (by decide))
      (hdata13 _ (by decide) (by decide) (by decide) (by decide)) hIPf_12
  have hIPf_14 : c14.get_register register.IP = some ipv :=
    CPU.get_register_step (by rw [hsz14, hsz13])
      (hdata14 _ (by decide) (by decide) (by decide) (by decide))
      (hdata14 _ (by decide) (by decide) (by decide) (by decide)) hIPf_13
  have hIPf : c15.get_register register.IP = some ipv :=
    CPU.get_register_step (by rw [hsz15, hsz14])
      (hdata15 _ (by decide) (by decide))
      (hdata15 _ (by decide) (by decide)) hIPf_14
  have hR8f_8 : c8.get_register register.R8 = some w8 :=
    CPU.get_register_step (by rw [hsz8, hsz7])
      (hdata8 _ (by decide) (by decide) (by decide) (by decide))
      (hdata8 _ (by decide) (by decide) (by decide) (by decide)) hreg7
  have hR8f_9 : c9.get_register register.R8 = some w8 :=
    CPU.get_register_step (by rw [hsz9, hsz8])
      (hdata9 _ (by decide) (by decide) (by decide) (by decide))
      (hdata9 _ (by decide) (by decide) (by decide) (by decide)) hR8f_8
  have hR8f_10 : c10.get_register register.R8 = some w8 :=
    CPU.get_register_step (by rw [hsz10, hsz9])
      (hdata10 _ (by decide) (by decide) (by decide) (by decide))
      (hdata10 _ (by decide) (by decide) (by decide) (by decide)) hR8f_9
  have hR8f_11 : c11.get_register register.R8 = some w8 :=
    CPU.get_register_step (by rw [hsz11, hsz10])
      (hdata11 _ (by decide) (by decide) (by decide) (by decide))
      (hdata11 _ (by decide) (by decide) (by decide) (by decide)) hR8f_10
  have hR8f_12 : c12.get_register register.R8 = some w8 :=
    CPU.get_register_step (by rw [hsz12, hsz11])
      (hdata12 _ (by decide) (by decide) (by decide) (by decide))
      (hdata12 _ (by decide) (by decide) (by decide) (by decide)) hR8f_11
  have hR8f_13 : c13.get_register register.R8 = some w8 :=
    CPU.get_register_step (by rw [hsz13, hsz12])
      (hdata13 _ (by decide) (by decide) (by decide) (by decide))
      (hdata13 _ (by decide) (by decide) (by decide) (by decide)) hR8f_12
  have hR8f_14 : c14.get_register register.R8 = some w8 :=
    CPU.get_register_step (by rw [hsz14, hsz13])
      (hdata14 _ (by decide) (by decide) (by decide) (by decide))
      (hdata14 _ (by decide) (by decide) (by decide) (by decide)) hR8f_13
  have hR8f : c15.get_register register.R8 = some w8 :=
    CPU.get_register_step (by rw [hsz15, hsz14])
      (hdata15 _ (by decide) (by decide))
      (hdata15 _ (by decide) (by decide)) hR8f_14
  have hR7f_9 : c9.get_register register.R7 = some w7 :=
    CPU.get_register_step (by rw [hsz9, hsz8])
      (hdata9 _ (by decide) (by decide) (by decide) (by decide))
      (hdata9 _ (by decide) (by decide) (by decide) (by decide)) hreg8
  have hR7f_10 : c10.get_register register.R7 = some w7 :=
    CPU.get_register_step (by rw [hsz10, hsz9])
      (hdata10 _ (by decide) (by decide) (by decide) (by decide))
      (hdata10 _ (by decide) (by decide) (by decide) (by decide)) hR7f_9
  have hR7f_11 : c11.get_register register.R7 = some w7 :=
    CPU.get_register_step (by rw [hsz11, hsz10])
      (hdata11 _ (by decide) (by decide) (by decide) (by decide))
      (hdata11 _ (by decide) (by decide) (by decide) (by decide)) hR7f_10
  have hR7f_12 : c12.get_register register.R7 = some w7 :=
    CPU.get_register_step (by rw [hsz12, hsz11])
      (hdata12 _ (by decide) (by decide) (by decide) (by decide))
      (hdata12 _ (by decide) (by decide) (by decide) (by decide)) hR7f_11
  have hR7f_13 : c13.get_register register.R7 = some w7 :=
    CPU.get_register_step (by rw [hsz13, hsz12])
      (hdata13 _ (by decide) (by decide) (by decide) (by decide))
      (hdata13 _ (by decide) (by decide) (by decide) (by decide)) hR7f_12
  have hR7f_14 : c14.get_register register.R7 = some w7 :=
    CPU.get_register_step (by rw [hsz14, hsz13])
      (hdata14 _ (by decide) (by decide) (by decide) (by decide))
      (hdata14 _ (by decide) (by decide) (by decide) (by decide)) hR7f_13
  have hR7f : c15.get_register register.R7 = some w7 :=
    CPU.get_register_step (by rw [hsz15, hsz14])
      (hdata15 _ (by decide) (by decide))
      (hdata15 _ (by decide) (by decide)) hR7f_14
  have hR6f_10 : c10.get_register register.R6 = some w6 :=
    CPU.get_register_step (by rw [hsz10, hsz9])
      (hdata10 _ (by decide) (by decide) (by decide) (by decide))
      (hdata10 _ (by decide) (by decide) (by decide) (by decide)) hreg9
  have hR6f_11 : c11.get_register register.R6 = some w6 :=
    CPU.get_register_step (by rw [hsz11, hsz10])
      (hdata11 _ (by decide) (by decide) (by decide) (by decide))
      (hdata11 _ (by decide) (by decide) (by decide) (by decide)) hR6f_10
  have hR6f_12 : c12.get_register register.R6 = some w6 :=
    CPU.get_register_step (by rw [hsz12, hsz11])
      (hdata12 _ (by decide) (by decide) (by decide) (by decide))
      (hdata12 _ (by decide) (by decide) (by decide) (by decide)) hR6f_11
  have hR6f_13 : c13.get_register register.R6 = some w6 :=
    CPU.get_register_step (by rw [hsz13, hsz12])
      (hdata13 _ (by decide) (by decide) (by decide) (by decide))
      (hdata13 _ (by decide) (by decide) (by decide) (by decide)) hR6f_12
  have hR6f_14 : c14.get_register register.R6 = some w6 :=
    CPU.get_register_step (by rw [hsz14, hsz13])
      (hdata14 _ (by decide) (by decide) (by decide) (by decide))
      (hdata14 _ (by decide) (by decide) (by decide) (by decide)) hR6f_13
  have hR6f : c15.get_register register.R6 = some w6 :=
    CPU.get_register_step (by rw [hsz15, hsz14])
      (hdata15 _ (by decide) (by decide))
      (hdata15 _ (by decide) (by decide)) hR6f_14
  have hR5f_11 : c11.get_register register.R5 = some w5 :=
    CPU.get_register_step (by rw [hsz11, hsz10])
      (hdata11 _ (by decide) (by decide) (by decide) (by decide))
      (hdata11 _ (by decide) (by decide) (by decide) (by decide)) hreg10
  have hR5f_12 : c12.get_register register.R5 = some w5 :=
    CPU.get_register_step (by rw [hsz12, hsz11])
      (hdata12 _ (by decide) (by decide) (by decide) (by decide))
      (hdata12 _ (by decide) (by decide) (by decide) (by decide)) hR5f_11
  have hR5f_13 : c13.get_register register.R5 = some w5 :=
    CPU.get_register_step (by rw [hsz13, hsz12])
      (hdata13 _ (by decide) (by decide) (by decide) (by decide))
      (hdata13 _ (by decide) (by decide) (by decide) (by decide)) hR5f_12
  have hR5f_14 : c14.get_register register.R5 = some w5 :=
    CPU.get_register_step (by rw [hsz14, hsz13])
      (hdata14 _ (by decide) (by decide) (by decide) (by decide))
      (hdata14 _ (by decide) (by decide) (by decide) (by decide)) hR5f_13
  have hR5f : c15.get_register register.R5 = some w5 :=
    CPU.get_register_step (by rw [hsz15, hsz14])
      (hdata15 _ (by decide) (by decide))
      (hdata15 _ (by decide) (by decide)) hR5f_14
  have hR4f_12 : c12.get_register register.R4 = some w4 :=
    CPU.get_register_step (by rw [hsz12, hsz11])
      (hdata12 _ (by decide) (by decide) (by decide) (by decide))
      (hdata12 _ (by decide) (by decide) (by decide) (by decide)) hreg11
  have hR4f_13 : c13.get_register register.R4 = some w4 :=
    CPU.get_register_step (by rw [hsz13, hsz12])
      (hdata13 _ (by decide) (by decide) (by decide) (by decide))
      (hdata13 _ (by decide) (by decide) (by decide) (by decide)) hR4f_12
  have hR4f_14 : c14.get_register register.R4 = some w4 :=
    CPU.get_register_step (by rw [hsz14, hsz13])
      (hdata14 _ (by decide) (by decide) (by decide) (by decide))
      (hdata14 _ (by decide) (by decide) (by decide) (by decide)) hR4f_13
  have hR4f : c15.get_register register.R4 = some w4 :=
    CPU.get_register_step (by rw [hsz15, hsz14])
      (hdata15 _ (by decide) (by decide))
      (hdata15 _ (by decide) (by decide)) hR4f_14
  have hR3f_13 : c13.get_register register.R3 = some w3 :=
    CPU.get_register_step (by rw [hsz13, hsz12])
      (hdata13 _ (by decide) (by decide) (by decide) (by decide))
      (hdata13 _ (by decide) (by decide) (by decide) (by decide)) hreg12
  have hR3f_14 : c14.get_register register.R3 = some w3 :=
    CPU.get_register_step (by rw [hsz14, hsz13])
      (hdata14 _ (by decide) (by decide) (by decide) (by decide))
      (hdata14 _ (by decide) (by decide) (by decide) (by decide)) hR3f_13
  have hR3f : c15.get_register register.R3 = some w3 :=
    CPU.get_register_step (by rw [hsz15, hsz14])
      (hdata15 _ (by decide) (by decide))
      (hdata15 _ (by decide) (by decide)) hR3f_14
  have hR2f_14 : c14.get_register register.R2 = some w2 :=
    CPU.get_register_step (by rw [hsz14, hsz13])
      (hdata14 _ (by decide) (by decide) (by decide) (by decide))
      (hdata14 _ (by decide) (by decide) (by decide) (by decide)) hreg13
  have hR2f : c15.get_register register.R2 = some w2 :=
    CPU.get_register_step (by rw [hsz15, hsz14])
      (hdata15 _ (by decide) (by decide))
      (hdata15 _ (by decide) (by decide)) hR2f_14
  have hR1f : c15.get_register register.R1 = some w1 :=
    CPU.get_register_step (by rw [hsz15, hsz14])
      (hdata15 _ (by decide) (by decide))
      (hdata15 _ (by decide) (by decide)) hreg14
  have hSPf : c15.get_register register.SP = some (fp + 20) :=
    CPU.get_register_step (by rw [hsz15, hsz14])
      (hdata15 _ (by decide) (by decide))
      (hdata15 _ (by decide) (by decide)) hSP14
  have hFPf : c15.get_register register.FP = some (fp + sz) := by
    rw [hFP15, u16add_eq hfpsz]
  refine ⟨c15, ?_, hm15, hsz15, ?_, hSPf, hFPf, hIPf, hR1f, hR2f, hR3f,
    hR4f, hR5f, hR6f, hR7f, hR8f, ?_⟩
  · have obind : ∀ {α β : Type} (a : α) (f : α → Option β),
        Option.bind (some a) f = f a := fun _ _ => rfl
    have obind2 : ∀ {α β : Type} (a : α) (f : α → Option β),
        ((some a : Option α) >>= f) = f a := fun _ _ => rfl
    have hfme : ∀ (f : CPU → ℕ → Option CPU) (b : CPU) (a : ℕ)
        (l : List ℕ), List.foldlM f b (a :: l) =
          f b a >>= fun x => List.foldlM f x l := fun _ _ _ _ => rfl
    have hfmn : ∀ (f : CPU → ℕ → Option CPU) (b : CPU),
        List.foldlM f b [] = some b := fun _ _ => rfl
    have hrev : register.GENERAL_PURPOSE_LIST.reverse =
        [register.R8, register.R7, register.R6, register.R5,
         register.R4, register.R3, register.R2, register.R1] := rfl
    rw [CPU.pop_state]
    show (c.get_register register.FP).bind _ = _
    rw [hfp]
    simp only [obind]
    show (c.set_register register.SP fp).bind _ = _
    rw [hset1]
    simp only [obind]
    show (CPU.pop_from_stack { c1 with stack_frame_size := 2 }).bind _ = _
    rw [hpop3]
    simp only [obind]
    show (CPU.pop_from_stack { c3 with stack_frame_size := sz }).bind _ = _
    rw [hpop5]
    simp only [obind]
    show (c5.set_register register.IP ipv).bind _ = _
    rw [hset6]
    simp only [obind]
    rw [hrev]
    rw [hfme]
    show ((CPU.pop_from_stack c6 >>= _) >>= _).bind _ = _
    rw [hstep7]
    simp only [obind2]
    rw [hfme]
    show ((CPU.pop_from_stack c7 >>= _) >>= _).bind _ = _
    rw [hstep8]
    simp only [obind2]
    rw [hfme]
    show ((CPU.pop_from_stack c8 >>= _) >>= _).bind _ = _
    rw [hstep9]
    simp only [obind2]
    rw [hfme]
    show ((CPU.pop_from_stack c9 >>= _) >>= _).bind _ = _
    rw [hstep10]
    simp only [obind2]
    rw [hfme]
    show ((CPU.pop_from_stack c10 >>= _) >>= _).bind _ = _
    rw [hstep11]
    simp only [obind2]
    rw [hfme]
    show ((CPU.pop_from_stack c11 >>= _) >>= _).bind _ = _
    rw [hstep12]
    simp only [obind2]
    rw [hfme]
    show ((CPU.pop_from_stack c12 >>= _) >>= _).bind _ = _
    rw [hstep13]
    simp only [obind2]
    rw [hfme]
    show ((CPU.pop_from_stack c13 >>= _) >>= _).bind _ = _
    rw [hstep14]
    simp only [obind2]
    rw [hfmn]
    simp only [obind2, obind]
    exact hset15
  · intro hwf
    exact hwf15 (hwf14 (hwf13 (hwf12 (hwf11 (hwf10 (hwf9 (hwf8 (hwf7
      (hwf6 (hwf5 (hwf3 (hwf1 hwf))))))))))))
  · rw [hsfs15]
    exact hs14


theorem Memory.get_u16_total {m : Memory} {a : ℕ} (h : a + 1 < m.size) :
    ∃ v, m.get_u16 a = some v := by
  unfold Memory.get_u16 Memory.get_u8
  rw [if_pos (by omega), if_pos (by omega)]
  exact ⟨_, rfl⟩

set_option maxRecDepth 4000 in
theorem WritesStep_preserves {c c' : CPU} {m : Memory} (h : WritesStep c c')
    (hm : c.memory = Device.flat m)
    (hsz : c.registers.size = register.SIZE)
    (hwf : c.registers.WF) :
    c'.memory = Device.flat m ∧ c'.registers.size = register.SIZE ∧
      c'.registers.WF ∧
      c'.get_register register.SP = c.get_register register.SP ∧
      c'.get_register register.FP = c.get_register register.FP ∧
      c'.stack_frame_size = c.stack_frame_size := by
  obtain ⟨r, v, hrL, hrSP, hrFP, hset⟩ := h
  have hrL' : r ∈ [0, 2, 4, 6, 8, 10, 12, 14, 16, 18, 20, 22, 24, 26] := hrL
  have hfacts : r + 1 < register.SIZE ∧ register.SP ≠ r ∧
      register.SP ≠ r + 1 ∧ register.SP + 1 ≠ r ∧
      register.SP + 1 ≠ r + 1 ∧ register.FP ≠ r ∧ register.FP ≠ r + 1 ∧
      register.FP + 1 ≠ r ∧ register.FP + 1 ≠ r + 1 := by
    fin_cases hrL'
    all_goals first
      | exact absurd rfl hrSP
      | exact absurd rfl hrFP
      | exact ⟨by decide, by decide, by decide, by decide, by decide,
          by decide, by decide, by decide, by decide⟩
  have hr' : r + 1 < c.registers.size := by
    rw [hsz]
    exact hfacts.1
  have hrs := Memory.set_u16_some c.registers r v hr'
  have heq := CPU.set_register_flat hm v hrs
  rw [hset] at heq
  have hc' : c' = { c with registers :=
      { size := c.registers.size
        data := Function.update (Function.update c.registers.data
          r (v % U16 / U8)) (r + 1) (v % U8) } } :=
    Option.some_injective _ heq
  subst hc'
  refine ⟨hm, hsz, hwf.set_u16 hrs, ?_, ?_, rfl⟩
  · refine Memory.get_u16_congr rfl ?_ ?_
    · show Function.update (Function.update c.registers.data
        r (v % U16 / U8)) (r + 1) (v % U8) register.SP =
        c.registers.data register.SP
      rw [Function.update_noteq hfacts.2.2.1,
        Function.update_noteq hfacts.2.1]
    · show Function.update (Function.update c.registers.data
        r (v % U16 / U8)) (r + 1) (v % U8) (register.SP + 1) =
        c.registers.data (register.SP + 1)
      rw [Function.update_noteq hfacts.2.2.2.2.1,
        Function.update_noteq hfacts.2.2.2.1]
  · refine Memory.get_u16_congr rfl ?_ ?_
    · show Function.update (Function.update c.registers.data
        r (v % U16 / U8)) (r + 1) (v % U8) register.FP =
        c.registers.data register.FP
      rw [Function.update_noteq hfacts.2.2.2.2.2.2.1,
        Function.update_noteq hfacts.2.2.2.2.2.1]
    · show Function.update (Function.update c.registers.data
        r (v % U16 / U8)) (r + 1) (v % U8) (register.FP + 1) =
        c.registers.data (register.FP + 1)
      rw [Function.update_noteq hfacts.2.2.2.2.2.2.2.2,
        Function.update_noteq hfacts.2.2.2.2.2.2.2.1]

theorem WritesStar_preserves {c c' : CPU} {m : Memory} (h : WritesStar c c')
    (hm : c.memory = Device.flat m)
    (hsz : c.registers.size = register.SIZE)
    (hwf : c.registers.WF) :
    c'.memory = Device.flat m ∧ c'.registers.size = register.SIZE ∧
      c'.registers.WF ∧
      c'.get_register register.SP = c.get_register register.SP ∧
      c'.get_register register.FP = c.get_register register.FP ∧
      c'.stack_frame_size = c.stack_frame_size := by
  induction h with
  | refl => exact ⟨hm, hsz, hwf, rfl, rfl, rfl⟩
  | tail hab hbc ih =>
    obtain ⟨hm1, hsz1, hwf1, hSP1, hFP1, hsfs1⟩ := ih
    obtain ⟨hm2, hsz2, hwf2, hSP2, hFP2, hsfs2⟩ :=
      WritesStep_preserves hbc hm1 hsz1 hwf1
    exact ⟨hm2, hsz2, hwf2, hSP2.trans hSP1, hFP2.trans hFP1,
      hsfs2.trans hsfs1⟩


set_option maxRecDepth 8000 in
/-- Master induction for balanced `push_state`/`pop_state` runs: on a
flat memory with enough room, `n` nested pushes and pops (with arbitrary
non-`SP`/`FP` register writes between the calls) restore `SP`; for
`n ≥ 1` they also reload `IP` and `R1..R8` from the outermost frame
(hence restore them) and set `FP` to `sp + sfs` and `stack_frame_size`
to `sfs + 2`; memory outside the frame window is untouched. -/
theorem BalancedRun.restores :
    ∀ {n : ℕ} {c c' : CPU}, BalancedRun n c c' →
    ∀ {m : Memory} {sp sfs ip r1 r2 r3 r4 r5 r6 r7 r8 : ℕ},
    c.memory = Device.flat m →
    c.registers.size = register.SIZE →
    c.registers.WF →
    c.get_register register.SP = some sp →
    c.stack_frame_size = sfs →
    c.get_register register.IP = some ip →
    c.get_register register.R1 = some r1 →
    c.get_register register.R2 = some r2 →
    c.get_register register.R3 = some r3 →
    c.get_register register.R4 = some r4 →
    c.get_register register.R5 = some r5 →
    c.get_register register.R6 = some r6 →
    c.get_register register.R7 = some r7 →
    c.get_register register.R8 = some r8 →
    20 * n ≤ sp →
    sp + 2 ≤ m.size →
    m.size ≤ U16 →
    sfs + 20 < U16 →
    sp + sfs < U16 →
    ∃ m', c'.memory = Device.flat m' ∧
      m'.size = m.size ∧
      c'.registers.size = register.SIZE ∧
      c'.registers.WF ∧
      c'.get_register register.SP = some sp ∧
      c'.stack_frame_size = (if n = 0 then sfs else sfs + 2) ∧
      (∀ x, (x + 20 * n < sp + 2 ∨ sp + 2 ≤ x) → m'.data x = m.data x) ∧
      (n = 0 → c'.get_register register.FP = c.get_register register.FP) ∧
      (1 ≤ n →
        c'.get_register register.FP = some (sp + sfs) ∧
        c'.get_register register.IP = some ip ∧
        c'.get_register register.R1 = some r1 ∧
        c'.get_register register.R2 = some r2 ∧
        c'.get_register register.R3 = some r3 ∧
        c'.get_register register.R4 = some r4 ∧
        c'.get_register register.R5 = some r5 ∧
        c'.get_register register.R6 = some r6 ∧
        c'.get_register register.R7 = some r7 ∧
        c'.get_register register.R8 = some r8) := by
  intro n c c' h
  induction h with
  | @base cA cB hW =>
    intro m sp sfs ip r1 r2 r3 r4 r5 r6 r7 r8 hm hsz hwf hSP hsfs hIP hR1
      hR2 hR3 hR4 hR5 hR6 hR7 hR8 hroom hub hU hsfsU hspsfs
    obtain ⟨hm', hsz', hwf', hSP', hFP', hsfs'⟩ :=
      WritesStar_preserves hW hm hsz hwf
    refine ⟨m, hm', rfl, hsz', hwf', hSP'.trans hSP, ?_, fun _ _ => rfl,
      fun _ => hFP', fun hn => absurd hn (by decide)⟩
    rw [if_pos rfl, hsfs', hsfs]
  | @frame k cA c1 c2 c3 c4 c5 hpush hW1 hinner hW2 hpop ih =>
    intro m sp sfs ip r1 r2 r3 r4 r5 r6 r7 r8 hm hsz hwf hSP hsfs hIP hR1
      hR2 hR3 hR4 hR5 hR6 hR7 hR8 hroom hub hU hsfsU hspsfs
    obtain ⟨c1', m1, hpush', hm1, hm1sz, hsz1, hwf1, hSP1, hFP1, hsfs1,
        hrd1, hagree1, hb0, hb1, hb2, hb3, hb4, hb5, hb6, hb7, hb8, hb9⟩ :=
      CPU.push_state_spec hm hSP hsz hwf hsfs hR1 hR2 hR3 hR4 hR5 hR6 hR7
        hR8 hIP (by omega) hub hU hsfsU
    rw [hpush] at hpush'
    obtain rfl := Option.some_injective _ hpush'
    obtain ⟨hm2, hsz2, hwf2, hSP2, hFP2, hsfs2⟩ :=
      WritesStar_preserves hW1 hm1 hsz1 hwf1
    have hSP2x : c2.get_register register.SP = some (sp - 20) :=
      hSP2.trans hSP1
    have hFP2x : c2.get_register register.FP = some (sp - 20) :=
      hFP2.trans hFP1
    have hsfs2x : c2.stack_frame_size = 0 := hsfs2.trans hsfs1
    obtain ⟨ip2, hip2⟩ := Memory.get_u16_total
      (m := c2.registers) (a := register.IP) (by rw [hsz2]; decide)
    obtain ⟨q1, hq1⟩ := Memory.get_u16_total
      (m := c2.registers) (a := register.R1) (by rw [hsz2]; decide)
    obtain ⟨q2, hq2⟩ := Memory.get_u16_total
      (m := c2.registers) (a := register.R2) (by rw [hsz2]; decide)
    obtain ⟨q3, hq3⟩ := Memory.get_u16_total
      (m := c2.registers) (a := register.R3) (by rw [hsz2]; decide)
    obtain ⟨q4, hq4⟩ := Memory.get_u16_total
      (m := c2.registers) (a := register.R4) (by rw [hsz2]; decide)
    obtain ⟨q5, hq5⟩ := Memory.get_u16_total
      (m := c2.registers) (a := register.R5) (by rw [hsz2]; decide)
    obtain ⟨q6, hq6⟩ := Memory.get_u16_total
      (m := c2.registers) (a := register.R6) (by rw [hsz2]; decide)
    obtain ⟨q7, hq7⟩ := Memory.get_u16_total
      (m := c2.registers) (a := register.R7) (by rw [hsz2]; decide)
    obtain ⟨q8, hq8⟩ := Memory.get_u16_total
      (m := c2.registers) (a := register.R8) (by rw [hsz2]; decide)
    obtain ⟨m2, hm3, hm2sz, hsz3, hwf3, hSP3, hsfs3, hagree2, hFPz, hFPo⟩ :=
      ih hm2 hsz2 hwf2 hSP2x hsfs2x hip2 hq1 hq2 hq3 hq4 hq5 hq6 hq7 hq8
        (by omega) (by rw [hm1sz]; omega) (by rw [hm1sz]; exact hU)
        (by omega) (by omega)
    have hFP3 : c3.get_register register.FP = some (sp - 20) := by
      rcases Nat.eq_zero_or_pos k with hk | hk
      · rw [hFPz hk]
        exact hFP2x
      · rw [(hFPo hk).1]
        norm_num
    obtain ⟨hm4, hsz4, hwf4, hSP4, hFP4, hsfs4⟩ :=
      WritesStar_preserves hW2 hm3 hsz3 hwf3
    have hSP4x : c4.get_register register.SP = some (sp - 20) :=
      hSP4.trans hSP3
    have hFP4x : c4.get_register register.FP = some (sp - 20) :=
      hFP4.trans hFP3
    have hread : ∀ a, sp - 18 ≤ a → m2.get_u16 a = m1.get_u16 a := by
      intro a ha
      exact Memory.get_u16_congr hm2sz
        (hagree2 a (Or.inr (by omega))) (hagree2 (a + 1) (Or.inr (by omega)))
    have hv0x : m2.get_u16 (sp - 20 + 2) = some (sfs + 20) := by
      rw [show sp - 20 + 2 = sp - 18 by omega]
      exact (hread _ (by omega)).trans hb0
    have hv1x : m2.get_u16 (sp - 20 + 4) = some ip := by
      rw [show sp - 20 + 4 = sp - 16 by omega]
      exact (hread _ (by omega)).trans hb1
    have hv2x : m2.get_u16 (sp - 20 + 6) = some r8 := by
      rw [show sp - 20 + 6 = sp - 14 by omega]
      exact (hread _ (by omega)).trans hb2
    have hv3x : m2.get_u16 (sp - 20 + 8) = some r7 := by
      rw [show sp - 20 + 8 = sp - 12 by omega]
      exact (hread _ (by omega)).trans hb3
    have hv4x : m2.get_u16 (sp - 20 + 10) = some r6 := by
      rw [show sp - 20 + 10 = sp - 10 by omega]
      exact (hread _ (by omega)).trans hb4
    have hv5x : m2.get_u16 (sp - 20 + 12) = some r5 := by
      rw [show sp - 20 + 12 = sp - 8 by omega]
      exact (hread _ (by omega)).trans hb5
    have hv6x : m2.get_u16 (sp - 20 + 14) = some r4 := by
      rw [show sp - 20 + 14 = sp - 6 by omega]
      exact (hread _ (by omega)).trans hb6
    have hv7x : m2.get_u16 (sp - 20 + 16) = some r3 := by
      rw [show sp - 20 + 16 = sp - 4 by omega]
      exact (hread _ (by omega)).trans hb7
    have hv8x : m2.get_u16 (sp - 20 + 18) = some r2 := by
      rw [show sp - 20 + 18 = sp - 2 by omega]
      exact (hread _ (by omega)).trans hb8
    have hv9x : m2.get_u16 (sp - 20 + 20) = some r1 := by
      rw [show sp - 20 + 20 = sp by omega]
      exact (hread _ (by omega)).trans hb9
    obtain ⟨c5', hpop', hm5, hsz5, hwf5, hSP5, hFP5, hIP5, hR1x, hR2x,
        hR3x, hR4x, hR5x, hR6x, hR7x, hR8x, hsfs5⟩ :=
      CPU.pop_state_spec hm4 hFP4x hsz4 (by omega) (by omega) (by omega)
        (by omega) hv0x hv1x (hwf.get_u16_lt hIP) hv2x (hwf.get_u16_lt hR8)
        hv3x (hwf.get_u16_lt hR7) hv4x (hwf.get_u16_lt hR6)
        hv5x (hwf.get_u16_lt hR5) hv6x (hwf.get_u16_lt hR4)
        hv7x (hwf.get_u16_lt hR3) hv8x (hwf.get_u16_lt hR2)
        hv9x (hwf.get_u16_lt hR1)
    rw [hpop] at hpop'
    obtain rfl := Option.some_injective _ hpop'
    refine ⟨m2, hm5, hm2sz.trans hm1sz, hsz5, hwf5 hwf4, ?_, ?_, ?_, ?_, ?_⟩
    · rw [hSP5, show sp - 20 + 20 = sp by omega]
    · rw [if_neg (Nat.succ_ne_zero k), hsfs5]
      omega
    · intro x hx
      exact (hagree2 x (by omega)).trans (hagree1 x (by omega))
    · intro hzero
      exact absurd hzero (Nat.succ_ne_zero k)
    · intro _
      refine ⟨?_, hIP5, hR1x, hR2x, hR3x, hR4x, hR5x, hR6x, hR7x, hR8x⟩
      rw [hFP5, show sp - 20 + (sfs + 20) = sp + sfs by omega]


set_option maxRecDepth 8000 in
/-- Concrete balanced run used by the C4 witness and counterexample: from
the freshly constructed CPU over a 64-byte flat memory, one `push_state`
followed by one `pop_state` succeeds, and the final `stack_frame_size`
is 2 (not the initial 0). -/
theorem C4run_construction :
    ∃ (c c1 c' : CPU),
      CPU.new (Device.flat (Memory.new 64)) = some c ∧
      c.push_state = some c1 ∧
      c1.pop_state = some c' ∧
      BalancedRun 1 c c' ∧
      c.memory = Device.flat (Memory.new 64) ∧
      c.registers.size = register.SIZE ∧
      c.registers.WF ∧
      c.get_register register.SP = some 62 ∧
      c.get_register register.FP = some (62 + 0) ∧
      c.stack_frame_size = 0 ∧
      c.get_register register.IP = some 0 ∧
      c.get_register register.R1 = some 0 ∧
      c.get_register register.R2 = some 0 ∧
      c.get_register register.R3 = some 0 ∧
      c.get_register register.R4 = some 0 ∧
      c.get_register register.R5 = some 0 ∧
      c.get_register register.R6 = some 0 ∧
      c.get_register register.R7 = some 0 ∧
      c.get_register register.R8 = some 0 ∧
      c'.stack_frame_size = 2 := by
  refine ⟨{ memory := Device.flat (Memory.new 64)
            registers := newRegisters 64
            stack_frame_size := 0
            is_in_interrupt_handler := false }, ?_⟩
  have hm : ({ memory := Device.flat (Memory.new 64)
               registers := newRegisters 64
               stack_frame_size := 0
               is_in_interrupt_handler := false } : CPU).memory =
      Device.flat (Memory.new 64) := rfl
  have hsz : ({ memory := Device.flat (Memory.new 64)
                registers := newRegisters 64
                stack_frame_size := 0
                is_in_interrupt_handler := false } : CPU).registers.size =
      register.SIZE := rfl
  have hwf : ({ memory := Device.flat (Memory.new 64)
                registers := newRegisters 64
                stack_frame_size := 0
                is_in_interrupt_handler := false } : CPU).registers.WF := by
    intro a
    show (newRegisters 64).data a < U8
    simp only [newRegisters, Function.update_apply]
    split_ifs <;> norm_num [u16sub, U8, U16]
  have hSP : ({ memory := Device.flat (Memory.new 64)
                registers := newRegisters 64
                stack_frame_size := 0
                is_in_interrupt_handler := false } : CPU).get_register
      register.SP = some 62 := by decide
  have hFP : ({ memory := Device.flat (Memory.new 64)
                registers := newRegisters 64
                stack_frame_size := 0
                is_in_interrupt_handler := false } : CPU).get_register
      register.FP = some (62 + 0) := by decide
  have hIP : ({ memory := Device.flat (Memory.new 64)
                registers := newRegisters 64
                stack_frame_size := 0
                is_in_interrupt_handler := false } : CPU).get_register
      register.IP = some 0 := by decide
  have hR : ∀ r ∈ register.GENERAL_PURPOSE_LIST,
      ({ memory := Device.flat (Memory.new 64)
         registers := newRegisters 64
         stack_frame_size := 0
         is_in_interrupt_handler := false } : CPU).get_register r =
      some 0 := by decide
  have hR1 := hR register.R1 (by decide)
  have hR2 := hR register.R2 (by decide)
  have hR3 := hR register.R3 (by decide)
  have hR4 := hR register.R4 (by decide)
  have hR5 := hR register.R5 (by decide)
  have hR6 := hR register.R6 (by decide)
  have hR7 := hR register.R7 (by decide)
  have hR8 := hR register.R8 (by decide)
  obtain ⟨c1, m1, hpush, hm1, hm1sz, hsz1, hwf1, hSP1, hFP1, hsfs1, hrd1,
      hagree1, hb0, hb1, hb2, hb3, hb4, hb5, hb6, hb7, hb8, hb9⟩ :=
    CPU.push_state_spec hm hSP hsz hwf rfl hR1 hR2 hR3 hR4 hR5 hR6 hR7 hR8
      hIP (by decide) (by decide) (by decide) (by decide)
  have hv0 : m1.get_u16 (62 - 20 + 2) = some (0 + 20) := by
    rw [show (62 : ℕ) - 20 + 2 = 62 - 18 by norm_num]
    exact hb0
  have hv1 : m1.get_u16 (62 - 20 + 4) = some 0 := by
    rw [show (62 : ℕ) - 20 + 4 = 62 - 16 by norm_num]
    exact hb1
  have hv2 : m1.get_u16 (62 - 20 + 6) = some 0 := by
    rw [show (62 : ℕ) - 20 + 6 = 62 - 14 by norm_num]
    exact hb2
  have hv3 : m1.get_u16 (62 - 20 + 8) = some 0 := by
    rw [show (62 : ℕ) - 20 + 8 = 62 - 12 by norm_num]
    exact hb3
  have hv4 : m1.get_u16 (62 - 20 + 10) = some 0 := by
    rw [show (62 : ℕ) - 20 + 10 = 62 - 10 by norm_num]
    exact hb4
  have hv5 : m1.get_u16 (62 - 20 + 12) = some 0 := by
    rw [show (62 : ℕ) - 20 + 12 = 62 - 8 by norm_num]
    exact hb5
  have hv6 : m1.get_u16 (62 - 20 + 14) = some 0 := by
    rw [show (62 : ℕ) - 20 + 14 = 62 - 6 by norm_num]
    exact hb6
  have hv7 : m1.get_u16 (62 - 20 + 16) = some 0 := by
    rw [show (62 : ℕ) - 20 + 16 = 62 - 4 by norm_num]
    exact hb7
  have hv8 : m1.get_u16 (62 - 20 + 18) = some 0 := by
    rw [show (62 : ℕ) - 20 + 18 = 62 - 2 by norm_num]
    exact hb8
  have hv9 : m1.get_u16 (62 - 20 + 20) = some 0 := by
    rw [show (62 : ℕ) - 20 + 20 = 62 by norm_num]
    exact hb9
  obtain ⟨c5, hpop, hm5, hsz5, hwf5, hSP5, hFP5, hIP5, hP1, hP2, hP3, hP4,
      hP5, hP6, hP7, hP8, hsfs5⟩ :=
    CPU.pop_state_spec hm1 hFP1 hsz1 (by decide) (by decide) (by decide)
      (by decide) hv0 hv1 (by decide) hv2 (by decide) hv3 (by decide)
      hv4 (by decide) hv5 (by decide) hv6 (by decide) hv7 (by decide)
      hv8 (by decide) hv9 (by decide)
  have hrun : BalancedRun 1
      { memory := Device.flat (Memory.new 64)
        registers := newRegisters 64
        stack_frame_size := 0
        is_in_interrupt_handler := false } c5 :=
    BalancedRun.frame hpush Relation.ReflTransGen.refl
      (BalancedRun.base Relation.ReflTransGen.refl)
      Relation.ReflTransGen.refl hpop
  refine ⟨c1, c5, ?_, hpush, hpop, hrun, hm, hsz, hwf, hSP, hFP, rfl, hIP,
    hR1, hR2, hR3, hR4, hR5, hR6, hR7, hR8, ?_⟩
  · exact CPU.new_eq _
  · rw [hsfs5]


/-- C4 (corrected): on a flat memory with enough stack room, starting
from a state satisfying the frame invariant `FP = SP + stack_frame_size`,
any `N = n + 1 ≥ 1` nested calls of `push_state` followed by `N` calls of
`pop_state` — with register writes to registers other than `SP` and `FP`
allowed between the calls — restore `R1..R8`, `IP`, `SP` and `FP` to
their pre-call values, but `stack_frame_size` ends at its pre-call value
**plus 2** (the bootstrap `stack_frame_size ← 2` of `pop_state` is
baked into the saved frame size, so it is not restored). -/
theorem C4_balanced_push_pop_restores_registers_but_not_sfs
    {n : ℕ} {c c' : CPU} {m : Memory}
    {sp sfs ip r1 r2 r3 r4 r5 r6 r7 r8 : ℕ}
    (h : BalancedRun (n + 1) c c')
    (hm : c.memory = Device.flat m)
    (hsz : c.registers.size = register.SIZE)
    (hwf : c.registers.WF)
    (hSP : c.get_register register.SP = some sp)
    (hFP : c.get_register register.FP = some (sp + sfs))
    (hsfs : c.stack_frame_size = sfs)
    (hIP : c.get_register register.IP = some ip)
    (hR1 : c.get_register register.R1 = some r1)
    (hR2 : c.get_register register.R2 = some r2)
    (hR3 : c.get_register register.R3 = some r3)
    (hR4 : c.get_register register.R4 = some r4)
    (hR5 : c.get_register register.R5 = some r5)
    (hR6 : c.get_register register.R6 = some r6)
    (hR7 : c.get_register register.R7 = some r7)
    (hR8 : c.get_register register.R8 = some r8)
    (hroom : 20 * (n + 1) ≤ sp)
    (hub : sp + 2 ≤ m.size) (hU : m.size ≤ U16)
    (hsfsU : sfs + 20 < U16) (hspsfs : sp + sfs < U16) :
    c'.get_register register.SP = c.get_register register.SP ∧
    c'.get_register register.FP = c.get_register register.FP ∧
    c'.get_register register.IP = c.get_register register.IP ∧
    c'.get_register register.R1 = c.get_register register.R1 ∧
    c'.get_register register.R2 = c.get_register register.R2 ∧
    c'.get_register register.R3 = c.get_register register.R3 ∧
    c'.get_register register.R4 = c.get_register register.R4 ∧
    c'.get_register register.R5 = c.get_register register.R5 ∧
    c'.get_register register.R6 = c.get_register register.R6 ∧
    c'.get_register register.R7 = c.get_register register.R7 ∧
    c'.get_register register.R8 = c.get_register register.R8 ∧
    c'.stack_frame_size = c.stack_frame_size + 2 := by
  obtain ⟨m', hm', hm'sz, hsz', hwf', hSP', hsfs', hagree, hFP0, hFP1⟩ :=
    h.restores hm hsz hwf hSP hsfs hIP hR1 hR2 hR3 hR4 hR5 hR6 hR7 hR8
      hroom hub hU hsfsU hspsfs
  obtain ⟨hFP', hIP', hR1', hR2', hR3', hR4', hR5', hR6', hR7', hR8'⟩ :=
    hFP1 (by omega)
  rw [if_neg (Nat.succ_ne_zero n)] at hsfs'
  exact ⟨hSP'.trans hSP.symm, hFP'.trans hFP.symm, hIP'.trans hIP.symm,
    hR1'.trans hR1.symm, hR2'.trans hR2.symm, hR3'.trans hR3.symm,
    hR4'.trans hR4.symm, hR5'.trans hR5.symm, hR6'.trans hR6.symm,
    hR7'.trans hR7.symm, hR8'.trans hR8.symm,
    by rw [hsfs', hsfs]⟩

/-- Witness for C4: the concrete one-deep balanced run over a 64-byte
flat memory, instantiating the corrected restoration theorem. -/
theorem C4_balanced_push_pop_witness :
    ∃ (c c' : CPU), BalancedRun 1 c c' ∧
      c.get_register register.SP = some 62 ∧
      c.stack_frame_size = 0 ∧
      c'.get_register register.SP = c.get_register register.SP ∧
      c'.get_register register.FP = c.get_register register.FP ∧
      c'.get_register register.IP = c.get_register register.IP ∧
      c'.get_register register.R1 = c.get_register register.R1 ∧
      c'.get_register register.R2 = c.get_register register.R2 ∧
      c'.get_register register.R3 = c.get_register register.R3 ∧
      c'.get_register register.R4 = c.get_register register.R4 ∧
      c'.get_register register.R5 = c.get_register register.R5 ∧
      c'.get_register register.R6 = c.get_register register.R6 ∧
      c'.get_register register.R7 = c.get_register register.R7 ∧
      c'.get_register register.R8 = c.get_register register.R8 ∧
      c'.stack_frame_size = c.stack_frame_size + 2 := by
  obtain ⟨c, c1, c', hnew, hpush, hpop, hrun, hm, hsz, hwf, hSP, hFP, hsfs,
      hIP, hR1, hR2, hR3, hR4, hR5, hR6, hR7, hR8, hs2⟩ :=
    C4run_construction
  have h := C4_balanced_push_pop_restores_registers_but_not_sfs (n := 0)
    hrun hm hsz hwf hSP hFP hsfs hIP hR1 hR2 hR3 hR4 hR5 hR6 hR7 hR8
    (by decide) (by decide) (by decide) (by decide) (by decide)
  exact ⟨c, c', hrun, hSP, hsfs, h.1, h.2.1, h.2.2.1, h.2.2.2.1,
    h.2.2.2.2.1, h.2.2.2.2.2.1, h.2.2.2.2.2.2.1, h.2.2.2.2.2.2.2.1,
    h.2.2.2.2.2.2.2.2.1, h.2.2.2.2.2.2.2.2.2.1,
    h.2.2.2.2.2.2.2.2.2.2.1, h.2.2.2.2.2.2.2.2.2.2.2⟩

/-- Counterexample to the original C4: even with no register writes at
all, one `push_state` followed by one `pop_state` from the initial CPU
over a 64-byte flat memory leaves `stack_frame_size = 2`, not its
pre-call value 0 — `stack_frame_size` is *not* restored. -/
theorem C4_sfs_not_restored_counterexample :
    ∃ (c c1 c' : CPU),
      CPU.new (Device.flat (Memory.new 64)) = some c ∧
      c.push_state = some c1 ∧
      c1.pop_state = some c' ∧
      c.stack_frame_size = 0 ∧
      c'.stack_frame_size = 2 ∧
      c'.stack_frame_size ≠ c.stack_frame_size := by
  obtain ⟨c, c1, c', hnew, hpush, hpop, hrun, hm, hsz, hwf, hSP, hFP, hsfs,
      hIP, hR1, hR2, hR3, hR4, hR5, hR6, hR7, hR8, hs2⟩ :=
    C4run_construction
  refine ⟨c, c1, c', hnew, hpush, hpop, hsfs, hs2, ?_⟩
  rw [hs2, hsfs]
  decide

end VM
